import Mathlib

/-!
Verification of the sprint-analysis core of the auto-sprint-ai repository.

The TypeScript services (MetricsCalculator, RiskAssessor, PredictionEngine,
RecommendationGenerator, AnalysisOrchestrator) are shallowly embedded below.
Conventions of the embedding:

* Timestamps (ISO date strings run through `new Date(...).getTime()` in the
  source) are modelled directly as epoch milliseconds (`Int`).
* JavaScript numbers are modelled as exact rationals (`ℚ`); `Math.floor`,
  `Math.ceil` and `Math.round` become `Int.floor`, `Int.ceil` and
  `⌊x + 1/2⌋` respectively.
* In-place array mutation (`Array.prototype.reverse`) is modelled by
  returning the final array state next to the computed value.
* `Map` objects are modelled as association lists in insertion order,
  matching JavaScript `Map` iteration semantics.
* Human-readable description strings are reproduced from the source
  templates; the helpers `fmt0`/`fmt1` stand in for the JavaScript
  `Number.prototype.toFixed` rendering (they round the same way but render
  without a decimal point; no claim below depends on these strings).
-/

/-- Milliseconds to hours, as in `(endTime - startTime) / (1000 * 60 * 60)`. -/
def msToHours (d : Int) : ℚ := (d : ℚ) / 3600000

/-- JavaScript `Math.round` (half-up, toward positive infinity). -/
def jsRound (q : ℚ) : ℤ := ⌊q + 1/2⌋

/-- Stand-in for JavaScript `toFixed(0)` (integer rendering). -/
def fmt0 (q : ℚ) : String := toString (jsRound q)

/-- Stand-in for JavaScript `toFixed(1)` (renders the value scaled by 10). -/
def fmt1 (q : ℚ) : String := toString (jsRound (q * 10))

/-- JavaScript `toLowerCase`, as a character list. -/
def lowerStr (s : String) : List Char := s.data.map Char.toLower

/-- JavaScript `String.prototype.includes` on lower-cased text:
`(lowerStr hay).containsSub needle` holds when `needle` occurs as a
contiguous substring of the lower-cased `hay`. -/
def containsSub (hay needle : String) : Prop := needle.data <:+: lowerStr hay

instance (hay needle : String) : Decidable (containsSub hay needle) :=
  List.decidableInfix _ _

/-- Boolean form of `containsSub`. -/
def containsSubB (hay needle : String) : Bool := decide (containsSub hay needle)

/-- JavaScript `x || d` for a nullable number: `null`, missing and `0` all
fall back to the default `d`. -/
def jsOrQ (o : Option ℚ) (d : ℚ) : ℚ :=
  match o with
  | some x => if x = 0 then d else x
  | none => d

/-- Insert `a` into `l` before the first element `b` with `le a b`.  Used by
`sortLE` below. -/
def insertLE {α : Type} (le : α → α → Bool) (a : α) : List α → List α
  | [] => [a]
  | b :: t => if le a b then a :: b :: t else b :: insertLE le a t

/-- Stable insertion sort for a total boolean preorder `le`.  JavaScript
`Array.prototype.sort` is a stable sort, and a stable sort with respect to
a total preorder has a unique result, so this models the `.sort(comparator)`
calls in the source exactly (`le a b` standing for
`comparator(a, b) <= 0`). -/
def sortLE {α : Type} (le : α → α → Bool) : List α → List α
  | [] => []
  | a :: t => insertLE le a (sortLE le t)

-- ===========================================================================
-- Data model (src/types.ts)
-- ===========================================================================

inductive SprintState where
  | active
  | closed
  | future
deriving DecidableEq

/-- `SprintData` from src/types.ts; dates are epoch milliseconds. -/
structure SprintData where
  id : String
  name : String
  state : SprintState
  startDate : Int
  endDate : Int
  goal : Option String
deriving DecidableEq

/-- `StatusTransition` from src/types.ts. -/
structure StatusTransition where
  fromStatus : String
  toStatus : String
  timestamp : Int
deriving DecidableEq

/-- `IssueData` from src/types.ts. -/
structure IssueData where
  id : String
  key : String
  summary : String
  assignee : Option String
  storyPoints : Option ℚ
  status : String
  statusTransitions : List StatusTransition
  linkedPRs : List String
deriving DecidableEq

inductive PRState where
  | OPEN
  | MERGED
  | DECLINED
deriving DecidableEq

/-- `ReviewerData` from src/types.ts. -/
structure ReviewerData where
  username : String
  approvedAt : Option Int
  commentCount : ℕ
deriving DecidableEq

/-- `PullRequestData` from src/types.ts. -/
structure PullRequestData where
  id : String
  title : String
  author : String
  createdAt : Int
  firstReviewAt : Option Int
  mergedAt : Option Int
  state : PRState
  reviewers : List ReviewerData
  revisionCount : ℕ
  linkedIssues : List String
deriving DecidableEq

/-- `SprintMetrics` from src/types.ts. -/
structure SprintMetrics where
  cycleTime : ℚ
  leadTime : ℚ
  throughput : ℕ
  velocity : ℚ
  wipCount : ℕ
  carryOverCount : ℕ
  completionRate : ℚ
deriving DecidableEq

/-- `PRMetrics` from src/types.ts. -/
structure PRMetrics where
  averageLatency : ℚ
  averageTimeToFirstReview : ℚ
  averageReviewCycles : ℚ
  averageRevisions : ℚ
deriving DecidableEq

/-- `HistoricalMetrics` from src/types.ts. -/
structure HistoricalMetrics where
  sprintId : String
  sprintName : String
  completedAt : Int
  metrics : SprintMetrics
  prMetrics : PRMetrics
deriving DecidableEq

inductive RiskLevel where
  | Low
  | Medium
  | High
deriving DecidableEq

inductive RiskCategory where
  | PR_DELAYS
  | HIGH_WIP
  | COMPLEXITY
  | CARRYOVER
  | BOTTLENECK
deriving DecidableEq

/-- `RiskFactor` from src/types.ts. -/
structure RiskFactor where
  category : RiskCategory
  severity : ℤ
  description : String
deriving DecidableEq

/-- `RiskAssessment` from src/types.ts. -/
structure RiskAssessment where
  level : RiskLevel
  score : ℤ
  factors : List RiskFactor
  justification : String
deriving DecidableEq

inductive BottleneckType where
  | STATUS
  | REVIEWER
  | DEPENDENCY
deriving DecidableEq

/-- `BottleneckInfo` from src/types.ts. -/
structure BottleneckInfo where
  location : String
  type : BottleneckType
  affectedIssues : List String
  severity : ℤ
  description : String
deriving DecidableEq

/-- `SpilloverPrediction` from src/types.ts. -/
structure SpilloverPrediction where
  issueKey : String
  probability : ℚ
  reasons : List String
deriving DecidableEq

inductive RecCategory where
  | SCOPE
  | REVIEWER
  | WIP
  | PROCESS
  | PLANNING
deriving DecidableEq

inductive Impact where
  | High
  | Medium
  | Low
deriving DecidableEq

/-- `Recommendation` from src/types.ts. -/
structure Recommendation where
  priority : ℕ
  category : RecCategory
  title : String
  description : String
  impact : Impact
deriving DecidableEq

/-- `ReviewerAssignment` from src/types.ts. -/
structure ReviewerAssignment where
  reviewer : String
  recommendedPRCount : ℤ
  rationale : String
deriving DecidableEq

/-- `NextSprintSuggestions` from src/types.ts. -/
structure NextSprintSuggestions where
  targetStoryPoints : ℤ
  tasksToInclude : List String
  tasksToPostpone : List String
  reviewerAssignments : List ReviewerAssignment
deriving DecidableEq

-- ===========================================================================
-- MetricsCalculator (src/src/services/MetricsCalculator.ts)
-- ===========================================================================

/-- `ACTIVE_STATUSES` keyword list of MetricsCalculator. -/
def ACTIVE_STATUSES : List String :=
  ["in progress", "in development", "in review", "code review", "testing",
   "qa", "ready for review"]

/-- `COMPLETED_STATUSES` keyword list of MetricsCalculator (the same list is
also hard-coded in PredictionEngine and RecommendationGenerator). -/
def COMPLETED_STATUSES : List String :=
  ["done", "closed", "resolved", "completed"]

/-- `MetricsCalculator.isActiveStatus`: case-insensitive substring match
against the active keyword list. -/
def isActiveStatus (status : String) : Bool :=
  ACTIVE_STATUSES.any fun kw => containsSubB status kw

/-- `MetricsCalculator.isCompletedStatus` (identical code also appears in
PredictionEngine and RecommendationGenerator). -/
def isCompletedStatus (status : String) : Bool :=
  COMPLETED_STATUSES.any fun kw => containsSubB status kw

/-- `MetricsCalculator.calculateCycleTime`.  The source first scans
`transitions` forward for the first transition into an active status, then
evaluates `transitions.reverse()` — which reverses the array of the caller
in place — and scans the reversed array for a transition into a completed
status.  The returned pair is (computed hours, final state of the mutated array). -/
def calculateCycleTime (transitions : List StatusTransition) :
    ℚ × List StatusTransition :=
  let startTransition := transitions.find? fun t => isActiveStatus t.toStatus
  let reversed := transitions.reverse
  let endTransition := reversed.find? fun t => isCompletedStatus t.toStatus
  match startTransition, endTransition with
  | some s, some e => (msToHours (e.timestamp - s.timestamp), reversed)
  | some _, none => (0, reversed)
  | none, _ => (0, reversed)

/-- `MetricsCalculator.calculatePRLatency`. -/
def calculatePRLatency (pr : PullRequestData) : ℚ :=
  match pr.mergedAt with
  | none => 0
  | some m => msToHours (m - pr.createdAt)

/-- `MetricsCalculator.calculateTimeToFirstReview`. -/
def calculateTimeToFirstReview (pr : PullRequestData) : ℚ :=
  match pr.firstReviewAt with
  | none => 0
  | some r => msToHours (r - pr.createdAt)

/-- `MetricsCalculator.calculatePRMetrics`. -/
def calculatePRMetrics (prs : List PullRequestData) : PRMetrics :=
  if prs.length = 0 then
    { averageLatency := 0, averageTimeToFirstReview := 0,
      averageReviewCycles := 0, averageRevisions := 0 }
  else
    let mergedPRs := prs.filter fun pr =>
      decide (pr.state = PRState.MERGED) && pr.mergedAt.isSome
    let averageLatency : ℚ :=
      if mergedPRs.length > 0 then
        (mergedPRs.foldl (fun sum pr => sum + calculatePRLatency pr) 0) /
          mergedPRs.length
      else 0
    let prsWithReview := prs.filter fun pr => pr.firstReviewAt.isSome
    let averageTimeToFirstReview : ℚ :=
      if prsWithReview.length > 0 then
        (prsWithReview.foldl (fun sum pr => sum + calculateTimeToFirstReview pr) 0) /
          prsWithReview.length
      else 0
    let averageReviewCycles : ℚ :=
      (prs.foldl (fun sum pr => sum + (pr.reviewers.length : ℚ)) 0) / prs.length
    let averageRevisions : ℚ :=
      (prs.foldl (fun sum pr => sum + (pr.revisionCount : ℚ)) 0) / prs.length
    { averageLatency := averageLatency,
      averageTimeToFirstReview := averageTimeToFirstReview,
      averageReviewCycles := averageReviewCycles,
      averageRevisions := averageRevisions }

/-- Per-status dwell bucket of `calculateStatusDwellTimes`: total dwell
hours, number of dwell intervals, and the distinct issue keys touched. -/
structure DwellData where
  totalTime : ℚ
  count : ℕ
  issues : List String
deriving DecidableEq

/-- One `Map` update step of `calculateStatusDwellTimes`: create the bucket
on first sight (JavaScript `Map` preserves insertion order), then add the
dwell time, bump the interval count, and record the issue key if new. -/
def addDwell (m : List (String × DwellData)) (status : String) (dwell : ℚ)
    (key : String) : List (String × DwellData) :=
  match m with
  | [] => [(status, ⟨dwell, 1, [key]⟩)]
  | (s, d) :: rest =>
    if s = status then
      (s, ⟨d.totalTime + dwell, d.count + 1,
           if key ∈ d.issues then d.issues else d.issues ++ [key]⟩) :: rest
    else
      (s, d) :: addDwell rest status dwell key

/-- Adjacent transition pairs of one issue (`for i in 0 .. length-2`). -/
def adjacentPairs (ts : List StatusTransition) :
    List (StatusTransition × StatusTransition) :=
  ts.zip ts.tail

/-- `MetricsCalculator.calculateStatusDwellTimes`. -/
def calculateStatusDwellTimes (issues : List IssueData) :
    List (String × DwellData) :=
  issues.foldl
    (fun m issue =>
      (adjacentPairs issue.statusTransitions).foldl
        (fun m p =>
          addDwell m p.1.toStatus (msToHours (p.2.timestamp - p.1.timestamp))
            issue.key)
        m)
    []

/-- `MetricsCalculator.calculateAverageDwellTime`. -/
def calculateAverageDwellTime (dwellTimes : List (String × DwellData)) : ℚ :=
  let totalTime : ℚ := dwellTimes.foldl (fun acc p => acc + p.2.totalTime) 0
  let totalCount : ℕ := dwellTimes.foldl (fun acc p => acc + p.2.count) 0
  if totalCount > 0 then totalTime / (totalCount : ℚ) else 0

/-- The per-bucket average `avgTime = data.totalTime / data.count` of
`identifyBottlenecks`. -/
def bucketAvg (p : String × DwellData) : ℚ := p.2.totalTime / (p.2.count : ℚ)

/-- The flagging-and-severity step of `identifyBottlenecks` for one bucket. -/
def bottleneckOfBucket (avgDwellTime : ℚ) (p : String × DwellData) :
    Option BottleneckInfo :=
  if isCompletedStatus p.1 then none
  else
    if bucketAvg p > 1 ∧ bucketAvg p > avgDwellTime * (3/2) ∧ p.2.count ≥ 2 then
      some
        { location := p.1
          type := BottleneckType.STATUS
          affectedIssues := p.2.issues
          severity := min 10 ⌊bucketAvg p / avgDwellTime * 3⌋
          description :=
            "Issues spend an average of " ++ fmt1 (bucketAvg p) ++
            " hours in \"" ++ p.1 ++ "\" status, which is " ++
            fmt0 ((bucketAvg p / avgDwellTime - 1) * 100) ++ "% above average." }
    else none

/-- `MetricsCalculator.identifyBottlenecks`: bucket the dwell times, flag
qualifying non-completed statuses, and sort by severity descending (stable,
as JavaScript `Array.prototype.sort`). -/
def identifyBottlenecks (issues : List IssueData) : List BottleneckInfo :=
  let statusDwellTimes := calculateStatusDwellTimes issues
  let avgDwellTime := calculateAverageDwellTime statusDwellTimes
  let bottlenecks := statusDwellTimes.filterMap (bottleneckOfBucket avgDwellTime)
  sortLE (fun a b => decide (b.severity ≤ a.severity)) bottlenecks

-- ===========================================================================
-- RiskAssessor (src/src/services/RiskAssessor.ts)
-- ===========================================================================

/-- `RiskAssessor.calculateRiskScore`: average the severities, scale to
0-100, round (JavaScript `Math.round`) and cap at 100. -/
def calculateRiskScore (factors : List RiskFactor) : ℤ :=
  if factors.length = 0 then 0
  else
    let totalSeverity : ℚ := factors.foldl (fun sum f => sum + (f.severity : ℚ)) 0
    let averageSeverity := totalSeverity / (factors.length : ℚ)
    let score := averageSeverity / 10 * 100
    min 100 (jsRound score)

/-- `RiskAssessor.classifyRiskLevel`. -/
def classifyRiskLevel (score : ℤ) : RiskLevel :=
  if score ≤ 33 then RiskLevel.Low
  else if score ≤ 66 then RiskLevel.Medium
  else RiskLevel.High

/-- `RiskAssessor.detectPRDelays`. -/
def detectPRDelays (prMetrics : PRMetrics)
    (historicalData : Option HistoricalMetrics) : Option RiskFactor :=
  match historicalData with
  | none =>
    if prMetrics.averageLatency > 48 ∨ prMetrics.averageTimeToFirstReview > 24 then
      some
        { category := RiskCategory.PR_DELAYS
          severity := min 10 ⌊prMetrics.averageLatency / 10⌋
          description :=
            "PR latency is " ++ fmt1 prMetrics.averageLatency ++ " hours with " ++
            fmt1 prMetrics.averageTimeToFirstReview ++ " hours to first review." }
    else none
  | some historicalData =>
    let historicalLatency := historicalData.prMetrics.averageLatency
    let threshold := historicalLatency * (13/10)
    if prMetrics.averageLatency > threshold then
      let percentageIncrease := (prMetrics.averageLatency / historicalLatency - 1) * 100
      some
        { category := RiskCategory.PR_DELAYS
          severity := min 10 ⌊percentageIncrease / 10⌋
          description :=
            "PR latency is " ++ fmt0 percentageIncrease ++
            "% above historical baseline (" ++ fmt1 prMetrics.averageLatency ++
            " vs " ++ fmt1 historicalLatency ++ " hours)." }
    else none

/-- The active-issue test used by `RiskAssessor.detectHighWIP` and
`RecommendationGenerator.calculateWIPByDeveloper`: the lower-cased status
must contain the substring `progress` or `review` (NOT the full
`ACTIVE_STATUSES` keyword list). -/
def wipActiveStatus (status : String) : Bool :=
  containsSubB status "progress" || containsSubB status "review"

/-- One `Map` counter bump (`map.set(k, (map.get(k) || 0) + 1)`), keeping
JavaScript `Map` insertion order. -/
def bumpCount (m : List (String × ℕ)) (k : String) : List (String × ℕ) :=
  match m with
  | [] => [(k, 1)]
  | (k', v) :: rest =>
    if k' = k then (k', v + 1) :: rest else (k', v) :: bumpCount rest k

/-- Per-assignee count of active issues, as built by both
`RiskAssessor.detectHighWIP` and
`RecommendationGenerator.calculateWIPByDeveloper` (identical loops):
filter to active issues, then group by non-null assignee. -/
def wipByDeveloper (issues : List IssueData) : List (String × ℕ) :=
  (issues.filter fun i => wipActiveStatus i.status).foldl
    (fun m i =>
      match i.assignee with
      | some a => bumpCount m a
      | none => m)
    []

/-- `Math.max(...)` over a list (the source only spreads non-empty lists). -/
def listMaxNat (l : List ℕ) : ℕ := l.foldl max 0

/-- `RiskAssessor.detectHighWIP`.  `issues = none` models the JavaScript
branch where the optional `issues` argument is not provided. -/
def detectHighWIP (sprintMetrics : SprintMetrics)
    (issues : Option (List IssueData)) : Option RiskFactor :=
  match issues with
  | some issues =>
    let wip := wipByDeveloper issues
    let overloadedDevs := wip.filter fun p => p.2 ≥ 5
    if overloadedDevs.length > 0 then
      let maxWIP := listMaxNat (overloadedDevs.map Prod.snd)
      some
        { category := RiskCategory.HIGH_WIP
          severity := min 10 (⌊((maxWIP : ℚ) - 5) * 2⌋ + 5)
          description :=
            toString overloadedDevs.length ++
            " developer(s) have 5+ active issues (max: " ++ toString maxWIP ++ ")." }
    else none
  | none =>
    if sprintMetrics.wipCount ≥ 10 then
      some
        { category := RiskCategory.HIGH_WIP
          severity := min 10 ⌊(sprintMetrics.wipCount : ℚ) / 3⌋
          description :=
            "High WIP with " ++ toString sprintMetrics.wipCount ++ " active issues." }
    else none

/-- `RiskAssessor.detectCarryOverRisk`. -/
def detectCarryOverRisk (sprintMetrics : SprintMetrics) : Option RiskFactor :=
  if sprintMetrics.completionRate < 70 then
    let deficit := 70 - sprintMetrics.completionRate
    some
      { category := RiskCategory.CARRYOVER
        severity := min 10 (⌊deficit / 5⌋ + 3)
        description :=
          "Completion rate is " ++ fmt0 sprintMetrics.completionRate ++
          "%, indicating " ++ toString sprintMetrics.carryOverCount ++
          " likely carry-over tasks." }
  else none

/-- Per-reviewer count of OPEN pull requests, as built by both
`RiskAssessor.detectReviewerBottlenecks` and
`RecommendationGenerator.calculateReviewerWorkload` (identical loops). -/
def calculateReviewerWorkload (prs : List PullRequestData) : List (String × ℕ) :=
  prs.foldl
    (fun m pr =>
      if pr.state = PRState.OPEN then
        pr.reviewers.foldl (fun m r => bumpCount m r.username) m
      else m)
    []

/-- `RiskAssessor.detectReviewerBottlenecks`. -/
def detectReviewerBottlenecks (prs : Option (List PullRequestData)) :
    Option RiskFactor :=
  match prs with
  | none => none
  | some prs =>
    if prs.length = 0 then none
    else
      let prsByReviewer := calculateReviewerWorkload prs
      let overloadedReviewers := prsByReviewer.filter fun p => p.2 ≥ 8
      if overloadedReviewers.length > 0 then
        let maxPRs := listMaxNat (overloadedReviewers.map Prod.snd)
        some
          { category := RiskCategory.BOTTLENECK
            severity := min 10 (⌊((maxPRs : ℚ) - 8) / 2⌋ + 6)
            description :=
              toString overloadedReviewers.length ++
              " reviewer(s) have 8+ pending PRs (max: " ++ toString maxPRs ++ ")." }
      else none

/-- `RiskAssessor.detectLowCompletionRate`. -/
def detectLowCompletionRate (sprintMetrics : SprintMetrics) : Option RiskFactor :=
  if sprintMetrics.completionRate < 50 ∧ sprintMetrics.velocity > 0 then
    some
      { category := RiskCategory.COMPLEXITY
        severity := min 10 (⌊(50 - sprintMetrics.completionRate) / 5⌋ + 5)
        description :=
          "Very low completion rate (" ++ fmt0 sprintMetrics.completionRate ++
          "%) suggests task complexity issues." }
  else none

/-- `RiskAssessor.identifyRiskFactors` (the five detectors push at most one
factor each, in source order). -/
def identifyRiskFactors (sprintMetrics : SprintMetrics) (prMetrics : PRMetrics)
    (historicalData : Option HistoricalMetrics)
    (issues : Option (List IssueData))
    (prs : Option (List PullRequestData)) : List RiskFactor :=
  (detectPRDelays prMetrics historicalData).toList ++
  (detectHighWIP sprintMetrics issues).toList ++
  (detectCarryOverRisk sprintMetrics).toList ++
  (detectReviewerBottlenecks prs).toList ++
  (detectLowCompletionRate sprintMetrics).toList

-- ===========================================================================
-- PredictionEngine (src/unnamed/part_008, second file)
-- ===========================================================================

/-- `NOT_STARTED_STATUSES` keyword list of PredictionEngine. -/
def NOT_STARTED_STATUSES : List String := ["to do", "backlog", "open", "new"]

/-- `PredictionEngine.isNotStartedStatus`. -/
def isNotStartedStatus (status : String) : Bool :=
  NOT_STARTED_STATUSES.any fun kw => containsSubB status kw

/-- `PredictionEngine.isInProgressStatus` (the `IN_PROGRESS_STATUSES` list
coincides with `ACTIVE_STATUSES` of MetricsCalculator). -/
def isInProgressStatus (status : String) : Bool :=
  ACTIVE_STATUSES.any fun kw => containsSubB status kw

/-- `PredictionEngine.calculateDaysRemaining`. -/
def calculateDaysRemaining (sprint : SprintData) (currentDate : Int) : ℚ :=
  ((sprint.endDate - currentDate : ℤ) : ℚ) / 86400000

/-- `PredictionEngine.calculateHoursPerStoryPoint`. -/
def calculateHoursPerStoryPoint (sprintMetrics : Option SprintMetrics) : ℚ :=
  match sprintMetrics with
  | none => 8
  | some m =>
    if m.velocity = 0 then 8
    else if m.throughput > 0 ∧ m.velocity > 0 then
      m.cycleTime / (m.velocity / (m.throughput : ℚ))
    else 8

/-- `PredictionEngine.calculateTimeInCurrentStatus`.  The source evaluates
`issue.statusTransitions.reverse()` — reversing the transitions array of the
issue in place —
and scans it for the most recent transition into the current status, using
the system clock (`Date.now()`, the `sysNow` argument).  Returns the hours
and the final state of the transitions array. -/
def calculateTimeInCurrentStatus (status : String)
    (transitions : List StatusTransition) (sysNow : Int) :
    ℚ × List StatusTransition :=
  if transitions.length = 0 then (0, transitions)
  else
    let reversed := transitions.reverse
    match reversed.find? fun t => t.toStatus = status with
    | none => (0, reversed)
    | some t => (msToHours (sysNow - t.timestamp), reversed)

/-- `PredictionEngine.calculateAverageStatusDwellTime`. -/
def calculateAverageStatusDwellTime (transitions : List StatusTransition) : ℚ :=
  if transitions.length < 2 then 0
  else
    let totalDwellTime : ℚ :=
      (adjacentPairs transitions).foldl
        (fun acc p => acc + msToHours (p.2.timestamp - p.1.timestamp)) 0
    totalDwellTime / ((transitions.length - 1 : ℕ) : ℚ)

/-- `PredictionEngine.calculateCompletionProbability`.  Factors are applied
in source order; factor 2 calls `calculateTimeInCurrentStatus`, whose
in-place reversal is threaded into the transitions list that the dwell-time
computation of factor 3 then reads. -/
def calculateCompletionProbability (issue : IssueData) (daysRemaining : ℚ)
    (hoursPerStoryPoint : ℚ) (sprintMetrics : Option SprintMetrics)
    (sysNow : Int) : ℚ × List String :=
  let storyPoints := jsOrQ issue.storyPoints 3
  let estimatedHoursNeeded := storyPoints * hoursPerStoryPoint
  let hoursRemaining := daysRemaining * 8
  let step1 : ℚ × List String :=
    if estimatedHoursNeeded ≤ hoursRemaining * (1/2) then
      (1/2 + 3/10,
       ["Estimated " ++ fmt0 estimatedHoursNeeded ++ "h needed vs " ++
        fmt0 hoursRemaining ++ "h remaining"])
    else if estimatedHoursNeeded ≤ hoursRemaining then
      (1/2 + 1/10,
       ["Tight timeline: " ++ fmt0 estimatedHoursNeeded ++ "h needed vs " ++
        fmt0 hoursRemaining ++ "h remaining"])
    else
      (1/2 - 3/10,
       ["Insufficient time: " ++ fmt0 estimatedHoursNeeded ++ "h needed vs " ++
        fmt0 hoursRemaining ++ "h remaining"])
  let step2 : ℚ × List String × List StatusTransition :=
    if isNotStartedStatus issue.status then
      (step1.1 - 2/10,
       step1.2 ++ ["Issue not yet started (status: " ++ issue.status ++ ")"],
       issue.statusTransitions)
    else if isInProgressStatus issue.status then
      let tp := calculateTimeInCurrentStatus issue.status issue.statusTransitions sysNow
      let timeInProgress := tp.1
      let avgCycleTime :=
        jsOrQ (sprintMetrics.map fun m => m.cycleTime) (hoursPerStoryPoint * storyPoints)
      if timeInProgress > avgCycleTime * (7/10) then
        (step1.1 + 2/10,
         step1.2 ++
           ["Issue in progress for " ++ fmt0 timeInProgress ++ "h (" ++
            fmt0 (timeInProgress / avgCycleTime * 100) ++ "% of avg cycle time)"],
         tp.2)
      else
        (step1.1 + 1/10,
         step1.2 ++ ["Issue recently started (" ++ fmt0 timeInProgress ++
                     "h in progress)"],
         tp.2)
    else
      (step1.1, step1.2, issue.statusTransitions)
  let statusDwellTime := calculateAverageStatusDwellTime step2.2.2
  let step3 : ℚ × List String :=
    if statusDwellTime > hoursPerStoryPoint * 2 then
      (step2.1 - 3/20,
       step2.2.1 ++ ["High status dwell time (" ++ fmt0 statusDwellTime ++
                     "h average per status)"])
    else (step2.1, step2.2.1)
  let step4 : ℚ × List String :=
    if storyPoints ≥ 8 then
      (step3.1 - 1/10,
       step3.2 ++ ["High complexity (" ++ toString storyPoints ++ " story points)"])
    else if storyPoints ≥ 5 then
      (step3.1 - 1/20,
       step3.2 ++ ["Medium-high complexity (" ++ toString storyPoints ++
                   " story points)"])
    else step3
  let step5 : ℚ × List String :=
    if issue.assignee = none then
      (step4.1 - 3/20, step4.2 ++ ["Issue is unassigned"])
    else step4
  let step6 : ℚ × List String :=
    if issue.linkedPRs.length > 0 then
      (step5.1 + 1/10,
       step5.2 ++ ["Has " ++ toString issue.linkedPRs.length ++ " linked PR(s)"])
    else step5
  (max 0 (min 1 step6.1), step6.2)

/-- The per-issue body of the scoring loop in `predictSpillover`: compute the
completion probability and keep the issue exactly when it is below 0.7,
inverting to a spillover probability. -/
def spilloverEntry (daysRemaining hoursPerStoryPoint : ℚ)
    (sprintMetrics : Option SprintMetrics) (sysNow : Int)
    (issue : IssueData) : Option SpilloverPrediction :=
  if (calculateCompletionProbability issue daysRemaining hoursPerStoryPoint
      sprintMetrics sysNow).1 < 7/10 then
    some
      { issueKey := issue.key
        probability := 1 - (calculateCompletionProbability issue daysRemaining
          hoursPerStoryPoint sprintMetrics sysNow).1
        reasons := (calculateCompletionProbability issue daysRemaining
          hoursPerStoryPoint sprintMetrics sysNow).2 }
  else none

/-- `PredictionEngine.predictSpillover`.  `currentDate` is the explicit
`currentDate` argument of the source; `sysNow` is the system clock used by
`calculateTimeInCurrentStatus`. -/
def predictSpillover (issues : List IssueData) (sprint : SprintData)
    (currentDate : Int) (sysNow : Int)
    (sprintMetrics : Option SprintMetrics) : List SpilloverPrediction :=
  let activeIssues := issues.filter fun i => !isCompletedStatus i.status
  let daysRemaining := calculateDaysRemaining sprint currentDate
  if daysRemaining ≤ 0 then
    activeIssues.map fun issue =>
      { issueKey := issue.key
        probability := 1
        reasons := ["Sprint has ended and issue is not completed"] }
  else
    let predictions := activeIssues.filterMap
      (spilloverEntry daysRemaining (calculateHoursPerStoryPoint sprintMetrics)
        sprintMetrics sysNow)
    sortLE (fun a b => decide (b.probability ≤ a.probability)) predictions

-- ===========================================================================
-- RecommendationGenerator (src/unnamed/part_008, first file)
-- ===========================================================================

/-- `RecommendationGenerator.isTaskStalled`: last transition older than 72
hours against the system clock (`Date.now()`, the `sysNow` argument). -/
def isTaskStalled (issue : IssueData) (sysNow : Int) : Bool :=
  match issue.statusTransitions.getLast? with
  | none => false
  | some t => decide (msToHours (sysNow - t.timestamp) > 72)

/-- `RecommendationGenerator.identifyRiskyTasks`: incomplete issues that are
blocked, of high complexity, or stalled. -/
def identifyRiskyTasks (issues : List IssueData) (sysNow : Int) : List IssueData :=
  (issues.filter fun i => !isCompletedStatus i.status).filter fun issue =>
    containsSubB issue.status "blocked" ||
    decide (jsOrQ issue.storyPoints 0 ≥ 8) ||
    isTaskStalled issue sysNow

/-- `RecommendationGenerator.generateScopeRecommendations`. -/
def generateScopeRecommendations (riskAssessment : RiskAssessment)
    (sprintMetrics : SprintMetrics) (issues : List IssueData)
    (sysNow : Int) : List Recommendation :=
  if riskAssessment.score ≥ 66 then
    let incompleteIssues := issues.filter fun i => !isCompletedStatus i.status
    let currentPoints : ℚ :=
      incompleteIssues.foldl (fun sum i => sum + jsOrQ i.storyPoints 0) 0
    let suggestedReduction := ⌈currentPoints * (1/5)⌉
    let rec1 : Recommendation :=
      { priority := 1
        category := RecCategory.SCOPE
        title := "Reduce sprint scope to manage high risk"
        description :=
          "Consider reducing scope by " ++ toString suggestedReduction ++
          " story points (20% of remaining work). Focus on completing high-priority tasks and postpone lower-priority items to reduce risk and improve completion rate."
        impact := Impact.High }
    let riskyTasks := identifyRiskyTasks issues sysNow
    if riskyTasks.length > 0 then
      let taskList := String.intercalate ", " ((riskyTasks.take 3).map fun t => t.key)
      [rec1,
       { priority := 2
         category := RecCategory.SCOPE
         title := "Postpone blocked or risky tasks"
         description :=
           "Consider postponing tasks that are blocked or have high complexity: " ++
           taskList ++
           ". These tasks are at high risk of spillover and may impact team velocity."
         impact := Impact.High }]
    else [rec1]
  else if sprintMetrics.completionRate < 70 ∧ riskAssessment.score ≥ 33 then
    [{ priority := 3
       category := RecCategory.SCOPE
       title := "Adjust scope to improve completion rate"
       description :=
         "Current completion rate is " ++ fmt0 sprintMetrics.completionRate ++
         "%. Consider moving 1-2 lower-priority tasks to the backlog to ensure the team can complete committed work."
       impact := Impact.Medium }]
  else []

/-- `RecommendationGenerator.generateReviewerRecommendations`. -/
def generateReviewerRecommendations (prs : List PullRequestData)
    (prMetrics : PRMetrics) : List Recommendation :=
  let reviewerWorkload := calculateReviewerWorkload prs
  let overloadedReviewers :=
    sortLE (fun a b => decide (b.2 ≤ a.2))
      (reviewerWorkload.filter fun p => p.2 ≥ 8)
  let overloadRecs : List Recommendation :=
    match overloadedReviewers with
    | [] => []
    | (topReviewer, prCount) :: _ =>
      let underutilizedReviewers :=
        (reviewerWorkload.filter fun p => p.2 < 3).map Prod.fst
      if underutilizedReviewers.length > 0 then
        [{ priority := 1
           category := RecCategory.REVIEWER
           title := "Redistribute PR reviews to balance workload"
           description :=
             topReviewer ++ " has " ++ toString prCount ++
             " pending PRs. Redistribute reviews to " ++
             String.intercalate ", " (underutilizedReviewers.take 2) ++
             " to reduce bottlenecks and improve review turnaround time."
           impact := Impact.High }]
      else
        [{ priority := 2
           category := RecCategory.REVIEWER
           title := "Address reviewer overload"
           description :=
             toString overloadedReviewers.length ++
             " reviewer(s) have 8+ pending PRs. Consider adding more reviewers or prioritizing critical PRs to reduce review delays."
           impact := Impact.High }]
  overloadRecs ++
    (if prMetrics.averageTimeToFirstReview > 24 then
      [{ priority := 3
         category := RecCategory.REVIEWER
         title := "Improve review response time"
         description :=
           "Average time to first review is " ++
           fmt1 prMetrics.averageTimeToFirstReview ++
           " hours. Set a team goal of responding to PRs within 8-12 hours to maintain development momentum."
         impact := Impact.Medium }]
    else [])

/-- `RecommendationGenerator.generateWIPRecommendations` (the first source
parameter `_sprintMetrics` is reserved and unused). -/
def generateWIPRecommendations (_sprintMetrics : SprintMetrics) (issues : List IssueData)
    (bottlenecks : Option (List BottleneckInfo)) : List Recommendation :=
  let wipByDev := wipByDeveloper issues
  let overloadedDevs := wipByDev.filter fun p => p.2 ≥ 5
  let wipRecs : List Recommendation :=
    match overloadedDevs with
    | [] => []
    | (topDev, wipCount) :: _ =>
      let rec1 : Recommendation :=
        { priority := 2
          category := RecCategory.WIP
          title := "Implement WIP limits to improve flow"
          description :=
            toString overloadedDevs.length ++
            " developer(s) have 5+ active issues (" ++ topDev ++ ": " ++
            toString wipCount ++
            "). Implement a WIP limit of 3-4 issues per developer to improve focus and completion rate."
          impact := Impact.High }
      let underutilizedDevs := wipByDev.filter fun p => p.2 < 2
      if underutilizedDevs.length > 0 then
        [rec1,
         { priority := 3
           category := RecCategory.WIP
           title := "Rebalance task assignments"
           description :=
             "Redistribute tasks from overloaded developers to team members with lower WIP. This will help prevent bottlenecks and improve overall team throughput."
           impact := Impact.Medium }]
      else [rec1]
  wipRecs ++
    (match bottlenecks with
     | some (topBottleneck :: _) =>
       if topBottleneck.type = BottleneckType.STATUS then
         [{ priority := 2
            category := RecCategory.PROCESS
            title :=
              "Address bottleneck in \"" ++ topBottleneck.location ++ "\" status"
            description :=
              toString topBottleneck.affectedIssues.length ++
              " issues are delayed in \"" ++ topBottleneck.location ++ "\". " ++
              topBottleneck.description ++
              " Investigate and remove blockers to improve flow."
            impact := Impact.High }]
       else []
     | _ => [])

/-- The retrospective-text rendering of a risk category
(lower-cased category names with the first underscore replaced by a space,
as `toLowerCase` plus `replace` compute on the literal names). -/
def riskCategoryText (c : RiskCategory) : String :=
  match c with
  | RiskCategory.PR_DELAYS => "pr delays"
  | RiskCategory.HIGH_WIP => "high wip"
  | RiskCategory.COMPLEXITY => "complexity"
  | RiskCategory.CARRYOVER => "carryover"
  | RiskCategory.BOTTLENECK => "bottleneck"

/-- `RecommendationGenerator.generateProcessRecommendations`. -/
def generateProcessRecommendations (riskAssessment : RiskAssessment)
    (sprintMetrics : SprintMetrics) (prMetrics : PRMetrics) :
    List Recommendation :=
  (if prMetrics.averageRevisions > 3 then
    [{ priority := 4
       category := RecCategory.PROCESS
       title := "Reduce PR revision cycles"
       description :=
         "Average of " ++ fmt1 prMetrics.averageRevisions ++
         " revisions per PR. Consider implementing PR checklists, clearer acceptance criteria, or pair programming to reduce rework."
       impact := Impact.Medium }]
  else []) ++
  (if riskAssessment.factors.length > 0 then
    let topFactors :=
      String.intercalate " and "
        ((riskAssessment.factors.take 2).map fun f => riskCategoryText f.category)
    [{ priority := 5
       category := RecCategory.PLANNING
       title := "Focus retrospective on key risk areas"
       description :=
         "In the next retrospective, prioritize discussion on " ++ topFactors ++
         ". Use data from this analysis to identify root causes and actionable improvements."
       impact := Impact.Medium }]
  else []) ++
  (if sprintMetrics.completionRate < 60 then
    [{ priority := 4
       category := RecCategory.PLANNING
       title := "Improve sprint planning and estimation"
       description :=
         "Completion rate of " ++ fmt0 sprintMetrics.completionRate ++
         "% suggests estimation or planning issues. Review task breakdown and consider using historical data for more accurate estimates."
       impact := Impact.Medium }]
  else [])

/-- The impact tiebreak table of `prioritizeRecommendations`
(`impactOrder = ... High: 0, Medium: 1, Low: 2 ...`). -/
def impactOrder (i : Impact) : ℕ :=
  match i with
  | Impact.High => 0
  | Impact.Medium => 1
  | Impact.Low => 2

/-- The comparator of `prioritizeRecommendations` as a total boolean order:
priority ascending, then impact High before Medium before Low. -/
def recLE (a b : Recommendation) : Bool :=
  decide (a.priority < b.priority) ||
    (decide (a.priority = b.priority) && decide (impactOrder a.impact ≤ impactOrder b.impact))

/-- The sequential renumbering pass of `prioritizeRecommendations`
(`.map((rec, index) => ... priority: index + 1 ...)`, started at `n`). -/
def renumber (n : ℕ) (recs : List Recommendation) : List Recommendation :=
  match recs with
  | [] => []
  | r :: rs => { r with priority := n } :: renumber (n + 1) rs

/-- `RecommendationGenerator.prioritizeRecommendations`: stable sort by
(priority, impact), truncate to 7, renumber from 1. -/
def prioritizeRecommendations (recommendations : List Recommendation) :
    List Recommendation :=
  renumber 1 ((sortLE recLE recommendations).take 7)

/-- The merge step of `RecommendationGenerator.generateRecommendations`:
the four generators contribute in source order. -/
def allRecommendations (riskAssessment : RiskAssessment)
    (sprintMetrics : SprintMetrics) (prMetrics : PRMetrics)
    (issues : List IssueData) (prs : List PullRequestData)
    (bottlenecks : Option (List BottleneckInfo)) (sysNow : Int) :
    List Recommendation :=
  generateScopeRecommendations riskAssessment sprintMetrics issues sysNow ++
  generateReviewerRecommendations prs prMetrics ++
  generateWIPRecommendations sprintMetrics issues bottlenecks ++
  generateProcessRecommendations riskAssessment sprintMetrics prMetrics

/-- `RecommendationGenerator.generateRecommendations`. -/
def generateRecommendations (riskAssessment : RiskAssessment)
    (sprintMetrics : SprintMetrics) (prMetrics : PRMetrics)
    (issues : List IssueData) (prs : List PullRequestData)
    (bottlenecks : Option (List BottleneckInfo)) (sysNow : Int) :
    List Recommendation :=
  prioritizeRecommendations
    (allRecommendations riskAssessment sprintMetrics prMetrics issues prs
      bottlenecks sysNow)

-- ===========================================================================
-- AnalysisOrchestrator (src/src/services/AnalysisOrchestrator.ts)
-- ===========================================================================

/-- The trimmed risk block of a `SprintReport` (level + justification). -/
structure ReportRisk where
  level : RiskLevel
  justification : String
deriving DecidableEq

/-- The metrics block of a `SprintReport`. -/
structure ReportMetrics where
  sprint : SprintMetrics
  pullRequests : PRMetrics
deriving DecidableEq

/-- `SprintReport` from src/types.ts; `generatedAt` is kept as a string. -/
structure SprintReport where
  summary : String
  keyFindings : List String
  riskAssessment : ReportRisk
  recommendations : List Recommendation
  nextSprintSuggestions : Option NextSprintSuggestions
  metrics : ReportMetrics
  generatedAt : String
deriving DecidableEq

/-- `AnalysisOrchestrator.handleAnalysisError`: the degraded fallback report
(`generatedAt` is the `new Date().toISOString()` value, passed in). -/
def handleAnalysisError (errorMessage : String) (sprintId : String)
    (generatedAt : String) : SprintReport :=
  { summary := "Analysis failed for sprint " ++ sprintId ++ ". " ++ errorMessage
    keyFindings :=
      ["Unable to complete analysis due to an error.",
       "Please check system logs for details.",
       "Try refreshing the analysis or contact support if the issue persists."]
    riskAssessment :=
      { level := RiskLevel.High
        justification := "Analysis could not be completed due to system error." }
    recommendations :=
      [{ priority := 1
         category := RecCategory.PROCESS
         title := "Retry analysis"
         description :=
           "Click the refresh button to retry the analysis. If the issue persists, contact your system administrator."
         impact := Impact.High }]
    nextSprintSuggestions := none
    metrics :=
      { sprint :=
          { cycleTime := 0, leadTime := 0, throughput := 0, velocity := 0,
            wipCount := 0, carryOverCount := 0, completionRate := 0 }
        pullRequests :=
          { averageLatency := 0, averageTimeToFirstReview := 0,
            averageReviewCycles := 0, averageRevisions := 0 } }
    generatedAt := generatedAt }

/-- `AnalysisOrchestrator.analyzeSprint`, abstracted over the body of its
try block: the entire pipeline (steps 1-10) either produces a report or
throws, and every escaping error is routed to `handleAnalysisError`. -/
def analyzeSprint (pipeline : Except String SprintReport) (sprintId : String)
    (generatedAt : String) : SprintReport :=
  match pipeline with
  | Except.ok report => report
  | Except.error errorMessage => handleAnalysisError errorMessage sprintId generatedAt

-- ===========================================================================
-- Spec-side definitions (formalising the vocabulary of the claims; these are
-- written from the specification text, to be compared with the embedded code)
-- ===========================================================================

/-- Arithmetic mean of a list of rationals, zero on the empty list. -/
def qmean (l : List ℚ) : ℚ := if l = [] then 0 else l.sum / (l.length : ℚ)

/-- Spec: the first transition whose target status matches the active
classifier. -/
def firstActiveTransition (ts : List StatusTransition) : Option StatusTransition :=
  (ts.filter fun t => isActiveStatus t.toStatus).head?

/-- Spec: the last transition whose target status matches the completed
classifier. -/
def lastCompletedTransition (ts : List StatusTransition) : Option StatusTransition :=
  (ts.filter fun t => isCompletedStatus t.toStatus).getLast?

/-- Spec: mean factor severity. -/
def meanSeverity (factors : List RiskFactor) : ℚ :=
  ((factors.map fun f => (f.severity : ℚ)).sum) / (factors.length : ℚ)

/-- Spec: `round(100 × mean(severity) / 10)` capped at 100, 0 for no
factors. -/
def specRiskScore (factors : List RiskFactor) : ℤ :=
  if factors = [] then 0
  else min 100 (jsRound (100 * meanSeverity factors / 10))

/-- Spec (claim C4): the number of active issues assigned to `a`, where
"active" is the WIP classifier actually used by `detectHighWIP`. -/
def assigneeWIP (issues : List IssueData) (a : String) : ℕ :=
  issues.countP fun i => decide (i.assignee = some a) && wipActiveStatus i.status

/-- Spec (claim C4, as written): the number of issues assigned to `a` whose
status matches the configured `ACTIVE_STATUSES` keyword list. -/
def assigneeActiveCount (issues : List IssueData) (a : String) : ℕ :=
  issues.countP fun i => decide (i.assignee = some a) && isActiveStatus i.status

/-- Lookup in a counter map (`map.get(k) || 0`). -/
def getCount (m : List (String × ℕ)) (k : String) : ℕ :=
  match m.find? fun p => p.1 = k with
  | some p => p.2
  | none => 0

-- ===========================================================================
-- Concrete evaluation data
-- ===========================================================================

/-- A single issue that bounces twice through the "In Review" status (two
dwell intervals of 10 hours each) with zero-length dwells in "Blocked". -/
def bounceIssue : IssueData :=
  { id := "9"
    key := "PROJ-9"
    summary := "bounce"
    assignee := none
    storyPoints := none
    status := "In Review"
    statusTransitions :=
      [{ fromStatus := "To Do", toStatus := "In Review", timestamp := 0 },
       { fromStatus := "In Review", toStatus := "Blocked", timestamp := 36000000 },
       { fromStatus := "Blocked", toStatus := "In Review", timestamp := 36000000 },
       { fromStatus := "In Review", toStatus := "Blocked", timestamp := 72000000 },
       { fromStatus := "Blocked", toStatus := "Waiting", timestamp := 72000000 }]
    linkedPRs := [] }

/-- One issue of the five-issue "Testing" workload scenario. -/
def testingIssue (n : String) : IssueData :=
  { id := n
    key := "T-" ++ n
    summary := "t"
    assignee := some "alice"
    storyPoints := some 3
    status := "Testing"
    statusTransitions := []
    linkedPRs := [] }

/-- Five active-per-the-configured-keywords issues (status "Testing"), all
assigned to one person. -/
def testingIssues : List IssueData :=
  [testingIssue "1", testingIssue "2", testingIssue "3", testingIssue "4",
   testingIssue "5"]

/-- One issue of the five-issue "In Progress" workload scenario. -/
def progressIssue (n : String) : IssueData :=
  { id := n
    key := "P-" ++ n
    summary := "p"
    assignee := some "bob"
    storyPoints := some 3
    status := "In Progress"
    statusTransitions := []
    linkedPRs := [] }

/-- Five issues in "In Progress", all assigned to one person. -/
def progressIssues : List IssueData :=
  [progressIssue "1", progressIssue "2", progressIssue "3", progressIssue "4",
   progressIssue "5"]

/-- An unstarted, unassigned, high-complexity issue. -/
def unstartedIssue : IssueData :=
  { id := "w"
    key := "W-9"
    summary := "w"
    assignee := none
    storyPoints := some 8
    status := "To Do"
    statusTransitions := []
    linkedPRs := [] }

/-- An active sprint with exactly one day left at time 0. -/
def oneDaySprint : SprintData :=
  { id := "s1"
    name := "s1"
    state := SprintState.active
    startDate := -1209600000
    endDate := 86400000
    goal := none }

/-- An all-zero `SprintMetrics` value. -/
def zeroSprintMetrics : SprintMetrics :=
  { cycleTime := 0, leadTime := 0, throughput := 0, velocity := 0,
    wipCount := 0, carryOverCount := 0, completionRate := 0 }

-- ===========================================================================
-- General helper lemmas
-- ===========================================================================

theorem find?_eq_head?_filter {α : Type} (p : α → Bool) (l : List α) :
    l.find? p = (l.filter p).head? := by
  induction l with
  | nil => rfl
  | cons a l ih =>
    by_cases h : p a
    · rw [List.find?_cons_of_pos _ h, List.filter_cons_of_pos h, List.head?_cons]
    · rw [List.find?_cons_of_neg _ (by simp [h]), List.filter_cons_of_neg (by simp [h]), ih]

theorem reverse_find?_eq_getLast?_filter {α : Type} (p : α → Bool) (l : List α) :
    l.reverse.find? p = (l.filter p).getLast? := by
  rw [find?_eq_head?_filter, List.filter_reverse, List.head?_reverse]

theorem insertLE_perm {α : Type} (le : α → α → Bool) (a : α) (l : List α) :
    (insertLE le a l).Perm (a :: l) := by
  induction l with
  | nil => rfl
  | cons b t ih =>
    unfold insertLE
    by_cases h : le a b
    · simp [h]
    · simp only [h, if_neg, Bool.false_eq_true, not_false_eq_true, if_false]
      exact ((ih.cons b).trans (List.Perm.swap a b t))

theorem sortLE_perm {α : Type} (le : α → α → Bool) (l : List α) :
    (sortLE le l).Perm l := by
  induction l with
  | nil => rfl
  | cons a t ih => exact (insertLE_perm le a (sortLE le t)).trans (ih.cons a)

theorem sortLE_mem {α : Type} (le : α → α → Bool) (l : List α) (x : α) :
    x ∈ sortLE le l ↔ x ∈ l := (sortLE_perm le l).mem_iff

theorem pairwise_insertLE {α : Type} (le : α → α → Bool)
    (htot : ∀ a b, le a b || le b a)
    (htrans : ∀ a b c, le a b = true → le b c = true → le a c = true)
    (a : α) (l : List α) (h : l.Pairwise fun x y => le x y = true) :
    (insertLE le a l).Pairwise fun x y => le x y = true := by
  induction l with
  | nil => simp [insertLE]
  | cons b t ih =>
    rcases List.pairwise_cons.mp h with ⟨hb, ht⟩
    unfold insertLE
    by_cases hab : le a b
    · rw [if_pos hab]
      refine List.pairwise_cons.mpr ⟨?_, h⟩
      intro x hx
      rcases List.mem_cons.mp hx with hx | hx
      · subst hx
        exact hab
      · exact htrans a b x hab (hb x hx)
    · rw [if_neg hab]
      refine List.pairwise_cons.mpr ⟨?_, ih ht⟩
      intro x hx
      rcases List.mem_cons.mp ((insertLE_perm le a t).mem_iff.mp hx) with hx | hx
      · rw [hx]
        have h2 := htot a b
        rw [Bool.or_eq_true] at h2
        exact h2.resolve_left hab
      · exact hb x hx

theorem pairwise_sortLE {α : Type} (le : α → α → Bool)
    (htot : ∀ a b, le a b || le b a)
    (htrans : ∀ a b c, le a b = true → le b c = true → le a c = true)
    (l : List α) :
    (sortLE le l).Pairwise fun x y => le x y = true := by
  induction l with
  | nil => simp [sortLE]
  | cons a t ih => exact pairwise_insertLE le htot htrans a (sortLE le t) ih

theorem foldl_add_map_sum {α : Type} (f : α → ℚ) (l : List α) (a : ℚ) :
    l.foldl (fun s x => s + f x) a = a + (l.map f).sum := by
  induction l generalizing a with
  | nil => simp
  | cons x l ih => simp [ih]; ring

-- ===========================================================================
-- Claim C9: calculateCycleTime value
-- ===========================================================================

/-- A reusable fact: the final state of the transitions array after
`calculateCycleTime` is the reverse of the input. -/
theorem calculateCycleTime_state (ts : List StatusTransition) :
    (calculateCycleTime ts).2 = ts.reverse := by
  unfold calculateCycleTime
  cases h1 : ts.find? fun t => isActiveStatus t.toStatus with
  | none => simp
  | some s =>
    cases h2 : ts.reverse.find? fun t => isCompletedStatus t.toStatus with
    | none => simp [h1, h2]
    | some e => simp [h1, h2]

/-- C9: for every transition list, `calculateCycleTime` returns the hours
from the first transition whose target status matches the active classifier
to the last transition whose target status matches the completed
classifier, and returns exactly 0 whenever no transition targets an active
status or no transition targets a completed status. -/
theorem C9_calculateCycleTime_value (ts : List StatusTransition) :
    ((calculateCycleTime ts).1 =
      match firstActiveTransition ts, lastCompletedTransition ts with
      | some s, some e => msToHours (e.timestamp - s.timestamp)
      | some _, none => 0
      | none, _ => 0) ∧
    ((∀ t ∈ ts, isActiveStatus t.toStatus = false) →
      (calculateCycleTime ts).1 = 0) ∧
    ((∀ t ∈ ts, isCompletedStatus t.toStatus = false) →
      (calculateCycleTime ts).1 = 0) := by
  have hstart : ts.find? (fun t => isActiveStatus t.toStatus) =
      firstActiveTransition ts := find?_eq_head?_filter _ ts
  have hend : ts.reverse.find? (fun t => isCompletedStatus t.toStatus) =
      lastCompletedTransition ts := reverse_find?_eq_getLast?_filter _ ts
  refine ⟨?_, ?_, ?_⟩
  · unfold calculateCycleTime
    cases h1 : firstActiveTransition ts with
    | none => simp [hstart, h1]
    | some s =>
      cases h2 : lastCompletedTransition ts with
      | none => simp [hstart, hend, h1, h2]
      | some e => simp [hstart, hend, h1, h2]
  · intro h
    have hfil : ts.filter (fun t => isActiveStatus t.toStatus) = [] :=
      List.filter_eq_nil_iff.mpr (by intro t ht; simp [h t ht])
    have h1 : firstActiveTransition ts = none := by
      unfold firstActiveTransition
      rw [hfil]
      rfl
    unfold calculateCycleTime
    simp [hstart, h1]
  · intro h
    have hfil : ts.filter (fun t => isCompletedStatus t.toStatus) = [] :=
      List.filter_eq_nil_iff.mpr (by intro t ht; simp [h t ht])
    have h2 : lastCompletedTransition ts = none := by
      unfold lastCompletedTransition
      rw [hfil]
      rfl
    unfold calculateCycleTime
    cases h1 : ts.find? fun t => isActiveStatus t.toStatus with
    | none => simp [h1]
    | some s => simp [h1, hend, h2]

/-- Witness for C9 at a concrete transition list with no completed target:
the cycle time evaluates to 0. -/
theorem C9_witness :
    (calculateCycleTime
      [{ fromStatus := "To Do", toStatus := "In Progress", timestamp := 0 },
       { fromStatus := "In Progress", toStatus := "Blocked",
         timestamp := 7200000 }]).1 = 0 :=
  (C9_calculateCycleTime_value _).2.2 (by decide)

-- ===========================================================================
-- Claim C10: calculateCycleTime reverses its argument in place
-- ===========================================================================

/-- C10: `calculateCycleTime` is not read-only on its argument — for every
transition list containing a transition into an active status, the array of
the caller ends up with the same elements in reversed order, and a repeated call
restores (and again observes) a different order than the previous call. -/
theorem C10_calculateCycleTime_mutates (ts : List StatusTransition)
    (_h : ∃ t ∈ ts, isActiveStatus t.toStatus = true) :
    (calculateCycleTime ts).2 = ts.reverse ∧
    (calculateCycleTime (calculateCycleTime ts).2).2 = ts := by
  refine ⟨calculateCycleTime_state ts, ?_⟩
  rw [calculateCycleTime_state, calculateCycleTime_state, List.reverse_reverse]

/-- Witness for C10 at a concrete two-element transition list. -/
theorem C10_witness :
    (calculateCycleTime
      [{ fromStatus := "To Do", toStatus := "In Progress", timestamp := 0 },
       { fromStatus := "In Progress", toStatus := "Done",
         timestamp := 7200000 }]).2 =
      [{ fromStatus := "In Progress", toStatus := "Done", timestamp := 7200000 },
       { fromStatus := "To Do", toStatus := "In Progress", timestamp := 0 }] :=
  (C10_calculateCycleTime_mutates _ (by decide)).1.trans (by decide)


-- ===========================================================================
-- Claim C7: calculatePRMetrics
-- ===========================================================================

theorem calculatePRMetrics_averageLatency (prs : List PullRequestData) :
    (calculatePRMetrics prs).averageLatency =
      qmean ((prs.filter fun pr =>
        decide (pr.state = PRState.MERGED) && pr.mergedAt.isSome).map
          calculatePRLatency) := by
  unfold calculatePRMetrics qmean
  by_cases hnil : prs.length = 0
  · have h : prs = [] := List.length_eq_zero.mp hnil
    subst h
    simp
  · simp only [if_neg hnil]
    by_cases hl : prs.filter (fun pr =>
        decide (pr.state = PRState.MERGED) && pr.mergedAt.isSome) = []
    · simp [hl]
    · have hlen : 0 < (prs.filter fun pr =>
          decide (pr.state = PRState.MERGED) && pr.mergedAt.isSome).length :=
        List.length_pos.mpr hl
      simp [hl, hlen, foldl_add_map_sum, List.map_eq_nil_iff]

theorem calculatePRMetrics_averageTimeToFirstReview (prs : List PullRequestData) :
    (calculatePRMetrics prs).averageTimeToFirstReview =
      qmean ((prs.filter fun pr => pr.firstReviewAt.isSome).map
        calculateTimeToFirstReview) := by
  unfold calculatePRMetrics qmean
  by_cases hnil : prs.length = 0
  · have h : prs = [] := List.length_eq_zero.mp hnil
    subst h
    simp
  · simp only [if_neg hnil]
    by_cases hl : prs.filter (fun pr => pr.firstReviewAt.isSome) = []
    · simp [hl]
    · have hlen : 0 < (prs.filter fun pr => pr.firstReviewAt.isSome).length :=
        List.length_pos.mpr hl
      simp [hl, hlen, foldl_add_map_sum, List.map_eq_nil_iff]

theorem calculatePRMetrics_averageReviewCycles (prs : List PullRequestData) :
    (calculatePRMetrics prs).averageReviewCycles =
      qmean (prs.map fun pr => (pr.reviewers.length : ℚ)) := by
  unfold calculatePRMetrics qmean
  by_cases hnil : prs.length = 0
  · have h : prs = [] := List.length_eq_zero.mp hnil
    subst h
    simp
  · have h : ¬ prs = [] := fun h => hnil (by simp [h])
    simp [hnil, h, foldl_add_map_sum, List.map_eq_nil_iff]

theorem calculatePRMetrics_averageRevisions (prs : List PullRequestData) :
    (calculatePRMetrics prs).averageRevisions =
      qmean (prs.map fun pr => (pr.revisionCount : ℚ)) := by
  unfold calculatePRMetrics qmean
  by_cases hnil : prs.length = 0
  · have h : prs = [] := List.length_eq_zero.mp hnil
    subst h
    simp
  · have h : ¬ prs = [] := fun h => hnil (by simp [h])
    simp [hnil, h, foldl_add_map_sum, List.map_eq_nil_iff]

/-- C7: for every pull-request list, `calculatePRMetrics` computes
`averageLatency` as the mean created-to-merged hours over merged requests
only (0 if none merged), `averageTimeToFirstReview` as the mean over
requests having a first-review timestamp (0 if none), and
`averageReviewCycles` / `averageRevisions` as means over all requests; on
the empty list all four fields are exactly 0 (the model is total over exact
rationals, so no NaN or null value can occur). -/
theorem C7_calculatePRMetrics (prs : List PullRequestData) :
    calculatePRMetrics [] =
      { averageLatency := 0, averageTimeToFirstReview := 0,
        averageReviewCycles := 0, averageRevisions := 0 } ∧
    (calculatePRMetrics prs).averageLatency =
      qmean ((prs.filter fun pr =>
        decide (pr.state = PRState.MERGED) && pr.mergedAt.isSome).map
          calculatePRLatency) ∧
    (calculatePRMetrics prs).averageTimeToFirstReview =
      qmean ((prs.filter fun pr => pr.firstReviewAt.isSome).map
        calculateTimeToFirstReview) ∧
    (calculatePRMetrics prs).averageReviewCycles =
      qmean (prs.map fun pr => (pr.reviewers.length : ℚ)) ∧
    (calculatePRMetrics prs).averageRevisions =
      qmean (prs.map fun pr => (pr.revisionCount : ℚ)) :=
  ⟨by decide, calculatePRMetrics_averageLatency prs,
   calculatePRMetrics_averageTimeToFirstReview prs,
   calculatePRMetrics_averageReviewCycles prs,
   calculatePRMetrics_averageRevisions prs⟩

-- ===========================================================================
-- Claim C2: calculateRiskScore and classifyRiskLevel
-- ===========================================================================

theorem calculateRiskScore_eq_spec (factors : List RiskFactor) :
    calculateRiskScore factors = specRiskScore factors := by
  unfold calculateRiskScore specRiskScore
  by_cases h : factors = []
  · simp [h]
  · have hlen : factors.length ≠ 0 := by simp [h]
    simp only [hlen, if_neg, h, if_false]
    congr 1
    unfold jsRound meanSeverity
    congr 1
    rw [foldl_add_map_sum]
    ring

/-- C2: `calculateRiskScore` equals `round(100 × mean(severity) / 10)`
capped at 100, is 0 on the empty list and 100 on a single severity-10
factor, and is monotone non-decreasing in the mean severity; the derived
level is a pure function of the score: Low for score ≤ 33, Medium for
34..66, High from 67 up. -/
theorem C2_riskScore_and_level :
    (∀ factors : List RiskFactor, calculateRiskScore factors =
      specRiskScore factors) ∧
    calculateRiskScore [] = 0 ∧
    (∀ (c : RiskCategory) (d : String),
      calculateRiskScore [⟨c, 10, d⟩] = 100) ∧
    (∀ fs gs : List RiskFactor, fs ≠ [] → gs ≠ [] →
      meanSeverity fs ≤ meanSeverity gs →
      calculateRiskScore fs ≤ calculateRiskScore gs) ∧
    (∀ s : ℤ, (s ≤ 33 → classifyRiskLevel s = RiskLevel.Low) ∧
      (34 ≤ s → s ≤ 66 → classifyRiskLevel s = RiskLevel.Medium) ∧
      (67 ≤ s → classifyRiskLevel s = RiskLevel.High)) := by
  refine ⟨calculateRiskScore_eq_spec, rfl, ?_, ?_, ?_⟩
  · intro c d
    unfold calculateRiskScore jsRound
    norm_num
  · intro fs gs hfs hgs hmean
    rw [calculateRiskScore_eq_spec, calculateRiskScore_eq_spec]
    unfold specRiskScore
    rw [if_neg hfs, if_neg hgs]
    refine min_le_min le_rfl ?_
    unfold jsRound
    exact Int.floor_le_floor (by linarith)
  · intro s
    refine ⟨fun h => ?_, fun h1 h2 => ?_, fun h => ?_⟩
    · unfold classifyRiskLevel
      rw [if_pos h]
    · unfold classifyRiskLevel
      rw [if_neg (by omega), if_pos h2]
    · unfold classifyRiskLevel
      rw [if_neg (by omega), if_neg (by omega)]

/-- Witness for C2: the monotonicity conjunct applied to two concrete
singleton factor lists, and the Medium band at score 50. -/
theorem C2_witness :
    calculateRiskScore
        [{ category := RiskCategory.HIGH_WIP, severity := 2,
           description := "a" }] ≤
      calculateRiskScore
        [{ category := RiskCategory.HIGH_WIP, severity := 5,
           description := "b" }] ∧
    classifyRiskLevel 50 = RiskLevel.Medium :=
  ⟨C2_riskScore_and_level.2.2.2.1 _ _ (by decide) (by decide) (by norm_num [meanSeverity]),
   (C2_riskScore_and_level.2.2.2.2 50).2.1 (by decide) (by decide)⟩

-- ===========================================================================
-- Claim C3: identifyBottlenecks
-- ===========================================================================

theorem calculateStatusDwellTimes_bounceIssue :
    calculateStatusDwellTimes [bounceIssue] =
      [("In Review", ⟨20, 2, ["PROJ-9"]⟩), ("Blocked", ⟨0, 2, ["PROJ-9"]⟩)] := by
  unfold calculateStatusDwellTimes adjacentPairs bounceIssue
  norm_num [addDwell, msToHours]
  all_goals decide

theorem avgDwell_bounceIssue :
    calculateAverageDwellTime
      [(("In Review" : String), (⟨20, 2, ["PROJ-9"]⟩ : DwellData)),
       ("Blocked", ⟨0, 2, ["PROJ-9"]⟩)] = 5 := by
  norm_num [calculateAverageDwellTime]

/-- C3 counterexample: `identifyBottlenecks` flags the "In Review" status of
a single bouncing issue — only one distinct issue is affected (indeed only
one issue exists at all), yet the status is flagged, because the source
tests `data.count >= 2` (the number of dwell intervals), not the number of
distinct issues. -/
theorem C3_counterexample :
    (identifyBottlenecks [bounceIssue]).map
      (fun b => (b.location, b.affectedIssues, b.severity)) =
      [("In Review", ["PROJ-9"], 6)] := by
  have hir : isCompletedStatus "In Review" = false := by decide
  have hbl : isCompletedStatus "Blocked" = false := by decide
  simp only [identifyBottlenecks, calculateStatusDwellTimes_bounceIssue,
    avgDwell_bounceIssue]
  norm_num [List.filterMap_cons, bottleneckOfBucket, bucketAvg, hir, hbl,
    sortLE, insertLE]

/-- C3 (amended): `identifyBottlenecks` flags a status (statuses matching
the completion classifier excluded) exactly when its average dwell time
exceeds 1 hour, exceeds 1.5 times the global mean dwell time, and at least
2 dwell intervals were recorded for it (the number of distinct affected
issues is tracked in the bucket but not tested); a flagged status gets
severity min(10, floor(avgDwellTime / globalMean × 3)) and the result is
sorted by severity descending. -/
theorem C3_identifyBottlenecks_amended (issues : List IssueData) :
    (∀ b ∈ identifyBottlenecks issues,
      ∃ p ∈ calculateStatusDwellTimes issues,
        b.location = p.1 ∧ isCompletedStatus p.1 = false ∧
        bucketAvg p > 1 ∧
        bucketAvg p >
          calculateAverageDwellTime (calculateStatusDwellTimes issues) * (3/2) ∧
        2 ≤ p.2.count ∧
        b.affectedIssues = p.2.issues ∧
        b.severity = min 10 ⌊bucketAvg p /
          calculateAverageDwellTime (calculateStatusDwellTimes issues) * 3⌋) ∧
    (∀ p ∈ calculateStatusDwellTimes issues,
      isCompletedStatus p.1 = false →
      bucketAvg p > 1 →
      bucketAvg p >
        calculateAverageDwellTime (calculateStatusDwellTimes issues) * (3/2) →
      2 ≤ p.2.count →
      ∃ b ∈ identifyBottlenecks issues, b.location = p.1) ∧
    (identifyBottlenecks issues).Pairwise fun a b => b.severity ≤ a.severity := by
  have hout : identifyBottlenecks issues =
      sortLE (fun a b => decide (b.severity ≤ a.severity))
        ((calculateStatusDwellTimes issues).filterMap
          (bottleneckOfBucket
            (calculateAverageDwellTime (calculateStatusDwellTimes issues)))) := rfl
  refine ⟨?_, ?_, ?_⟩
  · intro b hb
    rw [hout, sortLE_mem] at hb
    rcases List.mem_filterMap.mp hb with ⟨p, hpm, hfp⟩
    refine ⟨p, hpm, ?_⟩
    unfold bottleneckOfBucket at hfp
    split at hfp
    · exact absurd hfp (by simp)
    · split at hfp
      · rename_i hc hcond
        rcases hcond with ⟨h1, h2, h3⟩
        rcases Option.some.inj hfp with rfl
        exact ⟨rfl, by simpa using hc, h1, h2, h3, rfl, rfl⟩
      · exact absurd hfp (by simp)
  · intro p hpm hc h1 h2 h3
    have hfp : ∃ b, bottleneckOfBucket
        (calculateAverageDwellTime (calculateStatusDwellTimes issues)) p =
          some b ∧ b.location = p.1 := by
      unfold bottleneckOfBucket
      rw [if_neg (by simp [hc]), if_pos ⟨h1, h2, h3⟩]
      exact ⟨_, rfl, rfl⟩
    rcases hfp with ⟨b, hfp, hbl⟩
    refine ⟨b, ?_, hbl⟩
    rw [hout, sortLE_mem]
    exact List.mem_filterMap.mpr ⟨p, hpm, hfp⟩
  · rw [hout]
    have hp := pairwise_sortLE
      (fun a b : BottleneckInfo => decide (b.severity ≤ a.severity))
      (fun a b => by simpa using le_total b.severity a.severity)
      (fun a b c hab hbc => by
        simp only [decide_eq_true_eq] at hab hbc ⊢
        exact hbc.trans hab)
      ((calculateStatusDwellTimes issues).filterMap
        (bottleneckOfBucket
          (calculateAverageDwellTime (calculateStatusDwellTimes issues))))
    exact hp.imp fun h => by simpa using h

/-- Witness for C3: the flagging direction applied to the concrete bounce
issue yields a flagged "In Review" bottleneck. -/
theorem C3_witness :
    ∃ b ∈ identifyBottlenecks [bounceIssue], b.location = "In Review" := by
  refine (C3_identifyBottlenecks_amended [bounceIssue]).2.1
    ("In Review", ⟨20, 2, ["PROJ-9"]⟩)
    (by rw [calculateStatusDwellTimes_bounceIssue]; exact List.mem_cons_self _ _)
    (by decide)
    (by norm_num [bucketAvg])
    ?_
    (by norm_num)
  rw [calculateStatusDwellTimes_bounceIssue, avgDwell_bounceIssue]
  norm_num [bucketAvg]

-- ===========================================================================
-- Claim C4: detectHighWIP
-- ===========================================================================

theorem getCount_nil (k : String) : getCount [] k = 0 := rfl

theorem getCount_cons (a : String × ℕ) (m : List (String × ℕ)) (k : String) :
    getCount (a :: m) k = if a.1 = k then a.2 else getCount m k := by
  unfold getCount
  by_cases h : a.1 = k
  · rw [List.find?_cons_of_pos _ (by simpa using h), if_pos h]
  · rw [List.find?_cons_of_neg _ (by simpa using h), if_neg h]

theorem getCount_bumpCount (m : List (String × ℕ)) (k' k : String) :
    getCount (bumpCount m k') k =
      getCount m k + if k' = k then 1 else 0 := by
  induction m with
  | nil =>
    by_cases h : k' = k <;>
      simp [bumpCount, getCount_cons, getCount_nil, h]
  | cons a m ih =>
    obtain ⟨a1, a2⟩ := a
    by_cases ha : a1 = k'
    · subst ha
      by_cases hk : a1 = k
      · subst hk
        simp [bumpCount, getCount_cons]
      · simp [bumpCount, getCount_cons, hk]
    · by_cases hk : a1 = k
      · subst hk
        have hkk : ¬ k' = a1 := fun h => ha h.symm
        simp [bumpCount, getCount_cons, ha, hkk]
      · simp [bumpCount, getCount_cons, ha, hk, ih]

theorem bumpCount_keys_subset (m : List (String × ℕ)) (k' : String) :
    (bumpCount m k').map Prod.fst = m.map Prod.fst ∨
    (bumpCount m k').map Prod.fst = m.map Prod.fst ++ [k'] := by
  induction m with
  | nil => right; rfl
  | cons a m ih =>
    obtain ⟨a1, a2⟩ := a
    by_cases ha : a1 = k'
    · left
      simp [bumpCount, ha]
    · rcases ih with ih | ih
      · left
        simp [bumpCount, ha, ih]
      · right
        simp [bumpCount, ha, ih]

theorem bumpCount_nodupKeys (m : List (String × ℕ)) (k' : String)
    (h : (m.map Prod.fst).Nodup) :
    ((bumpCount m k').map Prod.fst).Nodup := by
  induction m with
  | nil => simp [bumpCount]
  | cons a m ih =>
    obtain ⟨a1, a2⟩ := a
    by_cases ha : a1 = k'
    · simpa [bumpCount, ha] using h
    · simp only [List.map_cons, List.nodup_cons] at h
      have hkeys : ((bumpCount m k').map Prod.fst).Nodup := ih h.2
      simp only [bumpCount, ha, if_neg, if_false, List.map_cons,
        List.nodup_cons]
      refine ⟨?_, hkeys⟩
      rcases bumpCount_keys_subset m k' with hs | hs
      · rw [hs]; exact h.1
      · rw [hs]
        simp only [List.mem_append, List.mem_singleton]
        rintro (hmem | rfl)
        · exact h.1 hmem
        · exact ha rfl

theorem getCount_of_mem_nodupKeys (m : List (String × ℕ))
    (h : (m.map Prod.fst).Nodup) (p : String × ℕ) (hp : p ∈ m) :
    getCount m p.1 = p.2 := by
  induction m with
  | nil => cases hp
  | cons a m ih =>
    simp only [List.map_cons, List.nodup_cons] at h
    rcases List.mem_cons.mp hp with rfl | hp
    · rw [getCount_cons, if_pos rfl]
    · rw [getCount_cons, if_neg ?_]
      · exact ih h.2 hp
      · intro he
        exact h.1 (he ▸ List.mem_map_of_mem Prod.fst hp)

theorem wipFold_getCount (l : List IssueData) (m : List (String × ℕ)) (k : String) :
    getCount
      (l.foldl (fun m i => match i.assignee with
        | some a => bumpCount m a
        | none => m) m) k =
      getCount m k + l.countP (fun i => decide (i.assignee = some k)) := by
  induction l generalizing m with
  | nil => simp
  | cons i l ih =>
    cases ha : i.assignee with
    | none => simp [List.foldl_cons, ha, ih, List.countP_cons]
    | some a =>
      simp only [List.foldl_cons, ha, ih, List.countP_cons, getCount_bumpCount]
      by_cases hk : a = k <;> simp [hk, ha] <;> omega

theorem wipFold_nodupKeys (l : List IssueData) (m : List (String × ℕ))
    (h : (m.map Prod.fst).Nodup) :
    (((l.foldl (fun m i => match i.assignee with
      | some a => bumpCount m a
      | none => m) m)).map Prod.fst).Nodup := by
  induction l generalizing m with
  | nil => exact h
  | cons i l ih =>
    cases ha : i.assignee with
    | none => simpa [List.foldl_cons, ha] using ih m h
    | some a =>
      simp only [List.foldl_cons, ha]
      exact ih _ (bumpCount_nodupKeys m a h)

theorem getCount_wipByDeveloper (issues : List IssueData) (k : String) :
    getCount (wipByDeveloper issues) k = assigneeWIP issues k := by
  unfold wipByDeveloper assigneeWIP
  rw [wipFold_getCount, getCount_nil, Nat.zero_add, List.countP_filter]

theorem wipByDeveloper_nodupKeys (issues : List IssueData) :
    ((wipByDeveloper issues).map Prod.fst).Nodup := by
  unfold wipByDeveloper
  exact wipFold_nodupKeys _ [] (by simp)

theorem le_foldl_max_init (t : List ℕ) (a : ℕ) : a ≤ t.foldl max a := by
  induction t generalizing a with
  | nil => exact le_refl a
  | cons c t ih => exact le_trans (le_max_left a c) (ih (max a c))

theorem foldl_max_le_of_mem {l : List ℕ} {x : ℕ} (hx : x ∈ l) (a : ℕ) :
    x ≤ l.foldl max a := by
  induction l generalizing a with
  | nil => cases hx
  | cons b t ih =>
    rcases List.mem_cons.mp hx with rfl | hx
    · exact le_trans (le_max_right a x) (le_foldl_max_init t (max a x))
    · exact ih hx (max a b)

theorem foldl_max_mem (l : List ℕ) (a : ℕ) : l.foldl max a ∈ a :: l := by
  induction l generalizing a with
  | nil => simp
  | cons b t ih =>
    have h := ih (max a b)
    simp only [List.foldl_cons]
    rcases List.mem_cons.mp h with h | h
    · rcases max_choice a b with hm | hm
      · rw [h, hm]
        exact List.mem_cons_self _ _
      · rw [h, hm]
        exact List.mem_cons_of_mem _ (List.mem_cons_self _ _)
    · exact List.mem_cons_of_mem _ (List.mem_cons_of_mem _ h)

theorem detectPRDelays_category (pm : PRMetrics)
    (hist : Option HistoricalMetrics) (f : RiskFactor)
    (hf : detectPRDelays pm hist = some f) :
    f.category = RiskCategory.PR_DELAYS := by
  unfold detectPRDelays at hf
  repeat' split at hf
  all_goals try simp only [Option.some.injEq] at hf
  all_goals try simp at hf
  all_goals first
  | (obtain ⟨-, rfl⟩ := hf; rfl)
  | (obtain rfl := hf; rfl)
  | rfl

theorem detectHighWIP_category (sm : SprintMetrics)
    (issues : Option (List IssueData)) (f : RiskFactor)
    (hf : detectHighWIP sm issues = some f) :
    f.category = RiskCategory.HIGH_WIP := by
  unfold detectHighWIP at hf
  repeat' split at hf
  all_goals try simp only [Option.some.injEq] at hf
  all_goals try simp at hf
  all_goals first
  | (obtain ⟨-, rfl⟩ := hf; rfl)
  | (obtain rfl := hf; rfl)
  | rfl

theorem detectCarryOverRisk_category (sm : SprintMetrics) (f : RiskFactor)
    (hf : detectCarryOverRisk sm = some f) :
    f.category = RiskCategory.CARRYOVER := by
  unfold detectCarryOverRisk at hf
  repeat' split at hf
  all_goals try simp only [Option.some.injEq] at hf
  all_goals try simp at hf
  all_goals first
  | (obtain ⟨-, rfl⟩ := hf; rfl)
  | (obtain rfl := hf; rfl)
  | rfl

theorem detectReviewerBottlenecks_category
    (prs : Option (List PullRequestData)) (f : RiskFactor)
    (hf : detectReviewerBottlenecks prs = some f) :
    f.category = RiskCategory.BOTTLENECK := by
  unfold detectReviewerBottlenecks at hf
  repeat' split at hf
  all_goals try simp only [Option.some.injEq] at hf
  all_goals try simp at hf
  all_goals first
  | (obtain ⟨-, rfl⟩ := hf; rfl)
  | (obtain rfl := hf; rfl)
  | rfl

theorem detectLowCompletionRate_category (sm : SprintMetrics) (f : RiskFactor)
    (hf : detectLowCompletionRate sm = some f) :
    f.category = RiskCategory.COMPLEXITY := by
  unfold detectLowCompletionRate at hf
  repeat' split at hf
  all_goals try simp only [Option.some.injEq] at hf
  all_goals try simp at hf
  all_goals first
  | (obtain ⟨-, rfl⟩ := hf; rfl)
  | (obtain rfl := hf; rfl)
  | rfl

theorem countP_toList_eq_zero_of_category {o : Option RiskFactor}
    {c : RiskCategory} (h : ∀ f, o = some f → f.category = c)
    (hc : c ≠ RiskCategory.HIGH_WIP) :
    o.toList.countP (fun f => f.category == RiskCategory.HIGH_WIP) = 0 := by
  cases ho : o with
  | none => rfl
  | some f =>
    have hcat := h f ho
    simp [List.countP_cons, hcat, hc]

theorem identifyRiskFactors_highWIP_count (sm : SprintMetrics)
    (pm : PRMetrics) (hist : Option HistoricalMetrics)
    (issues : Option (List IssueData)) (prs : Option (List PullRequestData)) :
    (identifyRiskFactors sm pm hist issues prs).countP
      (fun f => f.category == RiskCategory.HIGH_WIP) ≤ 1 := by
  unfold identifyRiskFactors
  rw [List.countP_append, List.countP_append, List.countP_append,
    List.countP_append]
  have h1 := countP_toList_eq_zero_of_category
    (detectPRDelays_category pm hist) (by simp)
  have h3 := countP_toList_eq_zero_of_category
    (detectCarryOverRisk_category sm) (by simp)
  have h4 := countP_toList_eq_zero_of_category
    (detectReviewerBottlenecks_category prs) (by simp)
  have h5 := countP_toList_eq_zero_of_category
    (detectLowCompletionRate_category sm) (by simp)
  have h2 : (detectHighWIP sm issues).toList.countP
      (fun f => f.category == RiskCategory.HIGH_WIP) ≤ 1 := by
    cases detectHighWIP sm issues with
    | none => simp
    | some f => exact le_trans (List.countP_le_length _) (by simp)
  omega

theorem assigneeWIP_of_mem (issues : List IssueData) (p : String × ℕ)
    (hp : p ∈ wipByDeveloper issues) : assigneeWIP issues p.1 = p.2 := by
  rw [← getCount_wipByDeveloper]
  exact getCount_of_mem_nodupKeys _ (wipByDeveloper_nodupKeys issues) p hp

theorem exists_wip_entry (issues : List IssueData) (a : String)
    (ha : 0 < assigneeWIP issues a) :
    ∃ p ∈ wipByDeveloper issues, p.1 = a ∧ p.2 = assigneeWIP issues a := by
  have hg := getCount_wipByDeveloper issues a
  unfold getCount at hg
  cases hfa : (wipByDeveloper issues).find? fun p => decide (p.1 = a) with
  | none =>
    rw [hfa] at hg
    simp at hg
    omega
  | some q =>
    rw [hfa] at hg
    simp at hg
    have hqm := List.mem_of_find?_eq_some hfa
    have hq1 : q.1 = a := by simpa using List.find?_some hfa
    exact ⟨q, hqm, hq1, hg⟩

/-- C4 counterexample: five issues in status "Testing" (which matches the
configured active keyword list) all assigned to one person do NOT trigger a
HIGH_WIP factor, because `detectHighWIP` only treats statuses containing
"progress" or "review" as active. -/
theorem C4_counterexample :
    detectHighWIP zeroSprintMetrics (some testingIssues) = none ∧
    5 ≤ assigneeActiveCount testingIssues "alice" := by
  constructor
  · decide
  · decide

set_option maxHeartbeats 1000000 in
/-- C4 (amended): when per-issue assignee data is provided, `detectHighWIP`
emits a HIGH_WIP factor exactly when some assignee has at least 5 active
issues — an issue being active when its status name contains
(case-insensitively) the substring "progress" or "review", and only issues
with a non-null assignee counted — with severity
min(10, floor((maxWIP − 5) × 2) + 5) for maxWIP the largest per-assignee
active count, and at most one HIGH_WIP factor per `identifyRiskFactors`
pass. -/
theorem C4_detectHighWIP_amended (sm : SprintMetrics) (pm : PRMetrics)
    (issues : List IssueData) :
    ((detectHighWIP sm (some issues)).isSome ↔
      ∃ a : String, 5 ≤ assigneeWIP issues a) ∧
    (∀ f, detectHighWIP sm (some issues) = some f →
      f.category = RiskCategory.HIGH_WIP ∧
      ∃ mw : ℕ, (∃ a : String, assigneeWIP issues a = mw) ∧
        (∀ a : String, assigneeWIP issues a ≤ mw) ∧ 5 ≤ mw ∧
        f.severity = min 10 (⌊((mw : ℚ) - 5) * 2⌋ + 5)) ∧
    (∀ hist prs, (identifyRiskFactors sm pm hist (some issues) prs).countP
      (fun f => f.category == RiskCategory.HIGH_WIP) ≤ 1) := by
  refine ⟨⟨?_, ?_⟩, ?_, fun hist prs =>
    identifyRiskFactors_highWIP_count sm pm hist (some issues) prs⟩
  · intro hs
    by_cases hov : ((wipByDeveloper issues).filter fun p => p.2 ≥ 5) = []
    · exfalso
      simp only [detectHighWIP, hov] at hs
      simp at hs
    · obtain ⟨p, hp⟩ := List.exists_mem_of_ne_nil _ hov
      have hmem := List.mem_filter.mp hp
      refine ⟨p.1, ?_⟩
      rw [assigneeWIP_of_mem issues p hmem.1]
      simpa using hmem.2
  · rintro ⟨a, ha⟩
    obtain ⟨p, hpmem, hp1, hp2⟩ := exists_wip_entry issues a (by omega)
    have hpf : p ∈ (wipByDeveloper issues).filter fun p => p.2 ≥ 5 :=
      List.mem_filter.mpr ⟨hpmem, by simp [hp2, hp1]; omega⟩
    have hlen : 0 < ((wipByDeveloper issues).filter fun p => p.2 ≥ 5).length :=
      List.length_pos.mpr (List.ne_nil_of_mem hpf)
    simp only [detectHighWIP, hlen]
    simp
  · intro f hf
    refine ⟨detectHighWIP_category sm (some issues) f hf, ?_⟩
    by_cases hov : ((wipByDeveloper issues).filter fun p => p.2 ≥ 5) = []
    · exfalso
      simp only [detectHighWIP, hov] at hf
      simp at hf
    · have hlen : 0 < ((wipByDeveloper issues).filter fun p => p.2 ≥ 5).length :=
        List.length_pos.mpr hov
      simp only [detectHighWIP, hlen] at hf
      rw [if_pos trivial] at hf
      obtain rfl := Option.some.inj hf
      refine ⟨listMaxNat (((wipByDeveloper issues).filter fun p => p.2 ≥ 5).map
        Prod.snd), ?_, ?_, ?_, ?_⟩
      · have hmem := foldl_max_mem
          ((((wipByDeveloper issues).filter fun p => p.2 ≥ 5)).map Prod.snd) 0
        rcases List.mem_cons.mp hmem with h0 | hmw
        · exfalso
          obtain ⟨p, hp⟩ := List.exists_mem_of_ne_nil _ hov
          have h5 : 5 ≤ p.2 := by simpa using (List.mem_filter.mp hp).2
          have hle : p.2 ≤ listMaxNat
              ((((wipByDeveloper issues).filter fun p => p.2 ≥ 5)).map Prod.snd) :=
            foldl_max_le_of_mem (List.mem_map_of_mem Prod.snd hp) 0
          unfold listMaxNat at hle
          omega
        · obtain ⟨p, hpf, hpv⟩ := List.mem_map.mp hmw
          refine ⟨p.1, ?_⟩
          rw [assigneeWIP_of_mem issues p (List.mem_filter.mp hpf).1, hpv]
          rfl
      · intro a
        rcases Nat.eq_zero_or_pos (assigneeWIP issues a) with hz | hpos
        · rw [hz]
          exact Nat.zero_le _
        · obtain ⟨p, hpmem, hp1, hp2⟩ := exists_wip_entry issues a hpos
          by_cases h5 : 5 ≤ p.2
          · have hpf : p ∈ (wipByDeveloper issues).filter fun p => p.2 ≥ 5 :=
              List.mem_filter.mpr ⟨hpmem, by simpa using h5⟩
            rw [← hp2]
            exact foldl_max_le_of_mem (List.mem_map_of_mem Prod.snd hpf) 0
          · obtain ⟨q, hq⟩ := List.exists_mem_of_ne_nil _ hov
            have hq5 : 5 ≤ q.2 := by simpa using (List.mem_filter.mp hq).2
            have hqle : q.2 ≤ listMaxNat
                ((((wipByDeveloper issues).filter fun p => p.2 ≥ 5)).map Prod.snd) :=
              foldl_max_le_of_mem (List.mem_map_of_mem Prod.snd hq) 0
            omega
      · obtain ⟨q, hq⟩ := List.exists_mem_of_ne_nil _ hov
        have hq5 : 5 ≤ q.2 := by simpa using (List.mem_filter.mp hq).2
        have hqle : q.2 ≤ listMaxNat
            ((((wipByDeveloper issues).filter fun p => p.2 ≥ 5)).map Prod.snd) :=
          foldl_max_le_of_mem (List.mem_map_of_mem Prod.snd hq) 0
        omega
      · rfl

/-- Witness for C4: five "In Progress" issues assigned to one person do
trigger the factor. -/
theorem C4_witness :
    (detectHighWIP zeroSprintMetrics (some progressIssues)).isSome :=
  (C4_detectHighWIP_amended zeroSprintMetrics
    { averageLatency := 0, averageTimeToFirstReview := 0,
      averageReviewCycles := 0, averageRevisions := 0 }
    progressIssues).1.mpr ⟨"bob", by decide⟩

-- ===========================================================================
-- Claim C5: predictSpillover after sprint end
-- ===========================================================================

/-- C5: for every sprint whose end date is at or before the current date,
`predictSpillover` returns, for every non-completed issue, a prediction with
probability exactly 1.0 and the fixed sprint-ended reason string, with no
further scoring; and issues whose status is completed never appear in the
output regardless of the end date. -/
theorem C5_predictSpillover_ended (issues : List IssueData)
    (sprint : SprintData) (sysNow : Int) (metrics : Option SprintMetrics) :
    (∀ currentDate : Int, sprint.endDate ≤ currentDate →
      predictSpillover issues sprint currentDate sysNow metrics =
        (issues.filter fun i => !isCompletedStatus i.status).map fun issue =>
          { issueKey := issue.key
            probability := 1
            reasons := ["Sprint has ended and issue is not completed"] }) ∧
    (∀ currentDate : Int,
      ∀ p ∈ predictSpillover issues sprint currentDate sysNow metrics,
        ∃ i ∈ issues, i.key = p.issueKey ∧ isCompletedStatus i.status = false) := by
  constructor
  · intro currentDate h
    have hnum : ((sprint.endDate - currentDate : ℤ) : ℚ) ≤ 0 := by
      exact_mod_cast sub_nonpos.mpr h
    have hle : calculateDaysRemaining sprint currentDate ≤ 0 := by
      unfold calculateDaysRemaining
      exact div_nonpos_iff.mpr (Or.inr ⟨hnum, by norm_num⟩)
    unfold predictSpillover
    rw [if_pos hle]
  · intro currentDate p hp
    simp only [predictSpillover] at hp
    split at hp
    · obtain ⟨i, hi, rfl⟩ := List.mem_map.mp hp
      have hif := List.mem_filter.mp hi
      exact ⟨i, hif.1, rfl, by simpa using hif.2⟩
    · rw [sortLE_mem] at hp
      obtain ⟨i, hi, hfi⟩ := List.mem_filterMap.mp hp
      have hif := List.mem_filter.mp hi
      refine ⟨i, hif.1, ?_, by simpa using hif.2⟩
      unfold spilloverEntry at hfi
      split at hfi
      · obtain rfl := Option.some.inj hfi
        rfl
      · simp at hfi

/-- Witness for C5 at a sprint that ended exactly at the current instant,
with one completed and one open issue. -/
theorem C5_witness :
    predictSpillover
      [{ id := "1", key := "W-1", summary := "a", assignee := none,
         storyPoints := none, status := "In Progress", statusTransitions := [],
         linkedPRs := [] },
       { id := "2", key := "W-2", summary := "b", assignee := none,
         storyPoints := none, status := "Done", statusTransitions := [],
         linkedPRs := [] }]
      { id := "s", name := "s", state := SprintState.active, startDate := 0,
        endDate := 0, goal := none }
      0 0 none =
      [{ issueKey := "W-1", probability := 1,
         reasons := ["Sprint has ended and issue is not completed"] }] := by
  rw [(C5_predictSpillover_ended _ _ _ _).1 0 (by decide)]
  decide

-- ===========================================================================
-- Claim C6: predictSpillover before sprint end
-- ===========================================================================

theorem calcProb_shape (issue : IssueData) (dr hpsp : ℚ)
    (m : Option SprintMetrics) (now : Int) :
    ∃ x r, calculateCompletionProbability issue dr hpsp m now =
      (max 0 (min 1 x), r) := by
  unfold calculateCompletionProbability
  exact ⟨_, _, rfl⟩

/-- C6: for a sprint that has not ended, every per-issue completion
probability is clamped to [0,1]; an issue is included in the output exactly
when its completion probability is strictly below 0.7; every emitted
spillover probability equals 1 − completion probability and is strictly
greater than 0.3; and the output is sorted by spillover probability
descending. -/
theorem C6_predictSpillover_scoring (issues : List IssueData)
    (sprint : SprintData) (metrics : Option SprintMetrics)
    (currentDate sysNow : Int) (h : currentDate < sprint.endDate) :
    (∀ (issue : IssueData) (dr hpsp : ℚ) (m : Option SprintMetrics) (now : Int),
      0 ≤ (calculateCompletionProbability issue dr hpsp m now).1 ∧
        (calculateCompletionProbability issue dr hpsp m now).1 ≤ 1) ∧
    (∀ issue ∈ issues, isCompletedStatus issue.status = false →
      (calculateCompletionProbability issue
        (calculateDaysRemaining sprint currentDate)
        (calculateHoursPerStoryPoint metrics) metrics sysNow).1 < 7/10 →
      ∃ p ∈ predictSpillover issues sprint currentDate sysNow metrics,
        p.issueKey = issue.key ∧
        p.probability = 1 - (calculateCompletionProbability issue
          (calculateDaysRemaining sprint currentDate)
          (calculateHoursPerStoryPoint metrics) metrics sysNow).1) ∧
    (∀ p ∈ predictSpillover issues sprint currentDate sysNow metrics,
      ∃ issue ∈ issues, isCompletedStatus issue.status = false ∧
        (calculateCompletionProbability issue
          (calculateDaysRemaining sprint currentDate)
          (calculateHoursPerStoryPoint metrics) metrics sysNow).1 < 7/10 ∧
        p.issueKey = issue.key ∧
        p.probability = 1 - (calculateCompletionProbability issue
          (calculateDaysRemaining sprint currentDate)
          (calculateHoursPerStoryPoint metrics) metrics sysNow).1) ∧
    (∀ p ∈ predictSpillover issues sprint currentDate sysNow metrics,
      3/10 < p.probability) ∧
    (predictSpillover issues sprint currentDate sysNow metrics).Pairwise
      fun a b => b.probability ≤ a.probability := by
  have hpos : 0 < calculateDaysRemaining sprint currentDate := by
    unfold calculateDaysRemaining
    apply div_pos
    · exact_mod_cast sub_pos.mpr h
    · norm_num
  have hbranch : predictSpillover issues sprint currentDate sysNow metrics =
      sortLE (fun a b => decide (b.probability ≤ a.probability))
        ((issues.filter fun i => !isCompletedStatus i.status).filterMap
          (spilloverEntry (calculateDaysRemaining sprint currentDate)
            (calculateHoursPerStoryPoint metrics) metrics sysNow)) := by
    unfold predictSpillover
    rw [if_neg (not_le.mpr hpos)]
  have hback : ∀ p ∈ predictSpillover issues sprint currentDate sysNow metrics,
      ∃ issue ∈ issues, isCompletedStatus issue.status = false ∧
        (calculateCompletionProbability issue
          (calculateDaysRemaining sprint currentDate)
          (calculateHoursPerStoryPoint metrics) metrics sysNow).1 < 7/10 ∧
        p.issueKey = issue.key ∧
        p.probability = 1 - (calculateCompletionProbability issue
          (calculateDaysRemaining sprint currentDate)
          (calculateHoursPerStoryPoint metrics) metrics sysNow).1 := by
    intro p hp
    rw [hbranch, sortLE_mem] at hp
    obtain ⟨issue, hi, hfi⟩ := List.mem_filterMap.mp hp
    have hif := List.mem_filter.mp hi
    unfold spilloverEntry at hfi
    split at hfi
    · rename_i hlt
      obtain rfl := Option.some.inj hfi
      exact ⟨issue, hif.1, by simpa using hif.2, hlt, rfl, rfl⟩
    · simp at hfi
  refine ⟨?_, ?_, hback, ?_, ?_⟩
  · intro issue dr hpsp m now
    obtain ⟨x, r, he⟩ := calcProb_shape issue dr hpsp m now
    rw [he]
    exact ⟨le_max_left 0 _, max_le (by norm_num) (min_le_left 1 x)⟩
  · intro issue hmem hcomp hlt
    have hentry : ∃ p, spilloverEntry (calculateDaysRemaining sprint currentDate)
        (calculateHoursPerStoryPoint metrics) metrics sysNow issue = some p ∧
        p.issueKey = issue.key ∧
        p.probability = 1 - (calculateCompletionProbability issue
          (calculateDaysRemaining sprint currentDate)
          (calculateHoursPerStoryPoint metrics) metrics sysNow).1 := by
      unfold spilloverEntry
      rw [if_pos hlt]
      exact ⟨_, rfl, rfl, rfl⟩
    obtain ⟨p, hfp, hk, hprob⟩ := hentry
    refine ⟨p, ?_, hk, hprob⟩
    rw [hbranch, sortLE_mem]
    exact List.mem_filterMap.mpr
      ⟨issue, List.mem_filter.mpr ⟨hmem, by simp [hcomp]⟩, hfp⟩
  · intro p hp
    obtain ⟨issue, _, _, hlt, _, hprob⟩ := hback p hp
    rw [hprob]
    linarith
  · rw [hbranch]
    have hp := pairwise_sortLE
      (fun a b : SpilloverPrediction => decide (b.probability ≤ a.probability))
      (fun a b => by simpa using le_total b.probability a.probability)
      (fun a b c hab hbc => by
        simp only [decide_eq_true_eq] at hab hbc ⊢
        exact hbc.trans hab)
      ((issues.filter fun i => !isCompletedStatus i.status).filterMap
        (spilloverEntry (calculateDaysRemaining sprint currentDate)
          (calculateHoursPerStoryPoint metrics) metrics sysNow))
    exact hp.imp fun h => by simpa using h

theorem daysRemaining_oneDaySprint : calculateDaysRemaining oneDaySprint 0 = 1 := by
  unfold calculateDaysRemaining oneDaySprint
  norm_num

theorem calcProb_unstartedIssue :
    (calculateCompletionProbability unstartedIssue
      (calculateDaysRemaining oneDaySprint 0)
      (calculateHoursPerStoryPoint none) none 0).1 = 0 := by
  have h1 : isNotStartedStatus "To Do" = true := by decide
  rw [daysRemaining_oneDaySprint]
  unfold calculateCompletionProbability calculateHoursPerStoryPoint
    unstartedIssue calculateAverageStatusDwellTime adjacentPairs jsOrQ
  norm_num [h1]

/-- Witness for C6: the one-day sprint with one unstarted 8-point unassigned
issue yields a spillover entry for that issue. -/
theorem C6_witness :
    ∃ p ∈ predictSpillover [unstartedIssue] oneDaySprint 0 0 none,
      p.issueKey = "W-9" := by
  obtain ⟨p, hp, hk, -⟩ :=
    (C6_predictSpillover_scoring [unstartedIssue] oneDaySprint none 0 0
      (by decide)).2.1 unstartedIssue (List.mem_singleton.mpr rfl)
      (by decide)
      (by rw [calcProb_unstartedIssue]; norm_num)
  exact ⟨p, hp, hk⟩

-- ===========================================================================
-- Claim C8: generateRecommendations
-- ===========================================================================

theorem renumber_length (n : ℕ) (l : List Recommendation) :
    (renumber n l).length = l.length := by
  induction l generalizing n with
  | nil => rfl
  | cons r rs ih => simp [renumber, ih]

theorem renumber_map_priority (n : ℕ) (l : List Recommendation) :
    (renumber n l).map (fun r => r.priority) = List.range' n l.length := by
  induction l generalizing n with
  | nil => rfl
  | cons r rs ih => simp [renumber, ih, List.range'_succ]

theorem recLE_total (a b : Recommendation) : recLE a b || recLE b a := by
  simp only [recLE, Bool.or_eq_true, Bool.and_eq_true, decide_eq_true_eq]
  omega

theorem recLE_trans (a b c : Recommendation) (hab : recLE a b = true)
    (hbc : recLE b c = true) : recLE a c = true := by
  simp only [recLE, Bool.or_eq_true, Bool.and_eq_true, decide_eq_true_eq]
    at hab hbc ⊢
  omega

/-- C8: for every combination of inputs, `generateRecommendations` returns
at most 7 recommendations; it is exactly the first at-most-7 elements of the
stable sort of the merged generator output by (priority ascending, then
impact High before Medium before Low), with priorities renumbered to the
contiguous sequence 1..k with no gaps. -/
theorem C8_generateRecommendations (riskAssessment : RiskAssessment)
    (sprintMetrics : SprintMetrics) (prMetrics : PRMetrics)
    (issues : List IssueData) (prs : List PullRequestData)
    (bottlenecks : Option (List BottleneckInfo)) (sysNow : Int) :
    (generateRecommendations riskAssessment sprintMetrics prMetrics issues prs
      bottlenecks sysNow).length ≤ 7 ∧
    (generateRecommendations riskAssessment sprintMetrics prMetrics issues prs
      bottlenecks sysNow).map (fun r => r.priority) =
      List.range' 1 (generateRecommendations riskAssessment sprintMetrics
        prMetrics issues prs bottlenecks sysNow).length ∧
    generateRecommendations riskAssessment sprintMetrics prMetrics issues prs
      bottlenecks sysNow =
      renumber 1 ((sortLE recLE (allRecommendations riskAssessment
        sprintMetrics prMetrics issues prs bottlenecks sysNow)).take 7) ∧
    ((sortLE recLE (allRecommendations riskAssessment sprintMetrics prMetrics
      issues prs bottlenecks sysNow)).take 7).Pairwise fun a b =>
        a.priority < b.priority ∨
          (a.priority = b.priority ∧ impactOrder a.impact ≤ impactOrder b.impact) := by
  have h3 : generateRecommendations riskAssessment sprintMetrics prMetrics
      issues prs bottlenecks sysNow =
      renumber 1 ((sortLE recLE (allRecommendations riskAssessment
        sprintMetrics prMetrics issues prs bottlenecks sysNow)).take 7) := rfl
  refine ⟨?_, ?_, h3, ?_⟩
  · rw [h3, renumber_length]
    exact List.length_take_le 7 _
  · rw [h3, renumber_map_priority, renumber_length]
  · have hp := pairwise_sortLE recLE recLE_total recLE_trans
      (allRecommendations riskAssessment sprintMetrics prMetrics issues prs
        bottlenecks sysNow)
    have ht := hp.sublist (List.take_sublist 7 _)
    refine ht.imp ?_
    intro a b hab
    simpa [recLE, Bool.or_eq_true, Bool.and_eq_true, decide_eq_true_eq] using hab

-- ===========================================================================
-- Claim C1: analyzeSprint degraded error report
-- ===========================================================================

/-- C1: whenever any error escapes the pipeline, `analyzeSprint` does not
propagate it: it returns a (well-typed) SprintReport whose risk level is
High, whose recommendations are exactly one PROCESS-category priority-1
recommendation advising a retry, and whose sprint and pull-request metrics
are all zero. -/
theorem C1_analyzeSprint_degraded (errorMessage sprintId generatedAt : String) :
    (analyzeSprint (Except.error errorMessage) sprintId
      generatedAt).riskAssessment.level = RiskLevel.High ∧
    (analyzeSprint (Except.error errorMessage) sprintId
      generatedAt).recommendations =
      [{ priority := 1
         category := RecCategory.PROCESS
         title := "Retry analysis"
         description :=
           "Click the refresh button to retry the analysis. If the issue persists, contact your system administrator."
         impact := Impact.High }] ∧
    (analyzeSprint (Except.error errorMessage) sprintId
      generatedAt).metrics.sprint =
      { cycleTime := 0, leadTime := 0, throughput := 0, velocity := 0,
        wipCount := 0, carryOverCount := 0, completionRate := 0 } ∧
    (analyzeSprint (Except.error errorMessage) sprintId
      generatedAt).metrics.pullRequests =
      { averageLatency := 0, averageTimeToFirstReview := 0,
        averageReviewCycles := 0, averageRevisions := 0 } :=
  ⟨rfl, rfl, rfl, rfl⟩
